import Mathlib

/-!
# School management server: access control of the route handlers

A shallow embedding of the Express route handlers of `src/server/server.js`.

* A handler is a pure function from the storage state, the authenticated
  principal (`req.user`), the route parameter and the JSON body to an
  `Outcome`: the HTTP status, the response body and the storage state after the
  request.
* Storage is one list of rows per table.  Every column except `Id` is nullable
  (`Option`).  Constraints of the schema (foreign keys, uniqueness, NOT NULL)
  are not part of the repository and are not modelled: a statement that the
  handler issues succeeds.  A failure of the connection itself is not modelled.
* JSON values are the scalar ones, numbers are integers.  A route parameter
  `:id` is taken as the integer it denotes.
* When several handlers are registered for one method and path, Express runs
  the first one; that is the one embedded here, and each definition gives the
  lines of the handler it follows.
-/

namespace SchoolServer

/-! ## JavaScript values -/

/-- A scalar JavaScript value, as carried by a JSON body or read from a row. -/
inductive JVal where
  | undefined
  | null
  | bool (b : Bool)
  | num (n : Int)
  | str (s : String)
deriving DecidableEq, Repr, Inhabited

/-- A JavaScript object with scalar properties (`req.body`, a result row). -/
abbrev Obj := List (String × JVal)

/-- Property access `o.k`: a missing property reads as `undefined`. -/
def Obj.get (o : Obj) (k : String) : JVal :=
  (o.lookup k).getD JVal.undefined

/-- Truthiness (`!!v`). -/
def JVal.truthy : JVal → Bool
  | .undefined => false
  | .null => false
  | .bool b => b
  | .num n => n != 0
  | .str s => s != ""

/-- A nullable integer column as a JavaScript value. -/
def ofSqlInt : Option Int → JVal
  | none => JVal.null
  | some n => JVal.num n

/-- A nullable text column as a JavaScript value. -/
def ofSqlStr : Option String → JVal
  | none => JVal.null
  | some s => JVal.str s

/-- White space skipped by `parseInt`, `parseFloat` and `Number`. -/
def isWhite (c : Char) : Bool :=
  c = ' ' || c = '\t' || c = '\n' || c = '\r'

/-- Value of a hexadecimal digit. -/
def hexVal (c : Char) : Option Nat :=
  if '0' ≤ c ∧ c ≤ '9' then some (c.toNat - '0'.toNat)
  else if 'a' ≤ c ∧ c ≤ 'f' then some (c.toNat - 'a'.toNat + 10)
  else if 'A' ≤ c ∧ c ≤ 'F' then some (c.toNat - 'A'.toNat + 10)
  else none

/-- Value of a digit in the given radix (10 or 16). -/
def digitVal (radix : Nat) (c : Char) : Option Nat :=
  match hexVal c with
  | some d => if d < radix then some d else none
  | none => none

/-- Reads the longest prefix of digits; returns the value, the number of digits
read and the rest. -/
def readDigits (radix : Nat) : List Char → Nat → Nat → Nat × Nat × List Char
  | [], acc, k => (acc, k, [])
  | c :: cs, acc, k =>
    match digitVal radix c with
    | some d => readDigits radix cs (acc * radix + d) (k + 1)
    | none => (acc, k, c :: cs)

/-- Splits an optional sign off. -/
def readSign : List Char → Bool × List Char
  | '-' :: cs => (true, cs)
  | '+' :: cs => (false, cs)
  | cs => (false, cs)

/-- Applies a sign. -/
def signed (neg : Bool) (n : Nat) : Int :=
  if neg then -(n : Int) else (n : Int)

/-- Splits a hexadecimal prefix `0x` / `0X` off. -/
def readHexPrefix : List Char → Option (List Char)
  | '0' :: 'x' :: cs => some cs
  | '0' :: 'X' :: cs => some cs
  | _ => none

/-- The string case of `parseInt(s)`: leading white space, a sign, an optional
`0x` and the longest run of digits; `none` is `NaN`. -/
def parseIntChars (cs : List Char) : Option Int :=
  let (neg, rest) := readSign (cs.dropWhile isWhite)
  match readHexPrefix rest with
  | some hs =>
    let (v, k, _) := readDigits 16 hs 0 0
    if k = 0 then none else some (signed neg v)
  | none =>
    let (v, k, _) := readDigits 10 rest 0 0
    if k = 0 then none else some (signed neg v)

/-- The global `parseInt(v)`; `none` is `NaN`. -/
def parseInt : JVal → Option Int
  | .num n => some n
  | .str s => parseIntChars s.data
  | _ => none

/-- The global `parseFloat(v)` on integer numerals; `none` is `NaN`. -/
def parseFloat : JVal → Option Int
  | .num n => some n
  | .str s =>
    let (neg, rest) := readSign (s.data.dropWhile isWhite)
    let (v, k, _) := readDigits 10 rest 0 0
    if k = 0 then none else some (signed neg v)
  | _ => none

/-- Drops white space at both ends. -/
def trimChars (cs : List Char) : List Char :=
  ((cs.dropWhile isWhite).reverse.dropWhile isWhite).reverse

/-- The string case of `Number(s)`: the whole trimmed string is a numeral. -/
def toNumberChars (cs : List Char) : Option Int :=
  let t := trimChars cs
  if t = [] then some 0
  else
    match readHexPrefix t with
    | some hs =>
      match readDigits 16 hs 0 0 with
      | (v, k, []) => if k = 0 then none else some (v : Int)
      | _ => none
    | none =>
      let (neg, rest) := readSign t
      match readDigits 10 rest 0 0 with
      | (v, k, []) => if k = 0 then none else some (signed neg v)
      | _ => none

/-- The conversion `Number(v)`, used by `isNaN` and by `<`; `none` is `NaN`. -/
def toNumber : JVal → Option Int
  | .undefined => none
  | .null => some 0
  | .bool b => some (if b then 1 else 0)
  | .num n => some n
  | .str s => toNumberChars s.data

/-- The global `isNaN(v)`. -/
def jsIsNaN (v : JVal) : Bool :=
  (toNumber v).isNone

/-- The comparison `v < 0`. -/
def ltZero (v : JVal) : Bool :=
  match toNumber v with
  | some n => n < 0
  | none => false

/-- The value of `a || b`. -/
def jsOr (a b : JVal) : JVal :=
  if a.truthy then a else b

/-! ## Parameters of a statement (the driver's conversions)

`none` stands for the `TypeError` the driver raises on a value it cannot
convert; `some none` is SQL `NULL`. -/

/-- A parameter of type `sql.Int`. -/
def sqlInt (v : JVal) : Option (Option Int) :=
  match v with
  | .undefined => some none
  | .null => some none
  | _ =>
    match toNumber v with
    | none => none
    | some n => if -2147483648 ≤ n ∧ n ≤ 2147483647 then some (some n) else none

/-- A parameter of type `sql.NVarChar`. -/
def sqlNVarChar (v : JVal) : Option String :=
  match v with
  | .undefined => none
  | .null => none
  | .bool b => some (if b then "true" else "false")
  | .num n => some (toString n)
  | .str s => some s

/-- A parameter of type `sql.Decimal(10, 2)`. -/
def sqlDecimal (v : JVal) : Option (Option Int) :=
  match v with
  | .undefined => some none
  | .null => some none
  | _ =>
    match parseFloat v with
    | none => none
    | some n => some (some n)

/-- Number of days of a month. -/
def daysInMonth (y m : Nat) : Nat :=
  if m = 2 then (if (y % 4 = 0 ∧ y % 100 ≠ 0) ∨ y % 400 = 0 then 29 else 28)
  else if m = 4 ∨ m = 6 ∨ m = 9 ∨ m = 11 then 30
  else 31

/-- Whether a character is a decimal digit (`\d`). -/
def isDigit (c : Char) : Bool :=
  decide ('0' ≤ c ∧ c ≤ '9')

/-- The test `/^\d{4}-\d{2}-\d{2}$/.test(s)` on the characters of `s`. -/
def isoDateShape : List Char → Bool
  | [y1, y2, y3, y4, '-', m1, m2, '-', d1, d2] =>
    isDigit y1 && isDigit y2 && isDigit y3 && isDigit y4 &&
    isDigit m1 && isDigit m2 && isDigit d1 && isDigit d2
  | _ => false

/-- The test `dateRegex.test(v)`: the argument is converted to a string, and
only a string can have the shape. -/
def dateRegexTest : JVal → Bool
  | .str s => isoDateShape s.data
  | _ => false

/-- A calendar day `YYYY-MM-DD` as the number `YYYYMMDD`. -/
def parseIsoDate (cs : List Char) : Option Int :=
  if isoDateShape cs then
    let y := (readDigits 10 (cs.take 4) 0 0).1
    let m := (readDigits 10 ((cs.drop 5).take 2) 0 0).1
    let d := (readDigits 10 (cs.drop 8) 0 0).1
    if 1 ≤ m ∧ m ≤ 12 ∧ 1 ≤ d ∧ d ≤ daysInMonth y m then
      some ((y * 10000 + m * 100 + d : Nat) : Int)
    else none
  else none

/-- A parameter of type `sql.Date`.  Only the form `YYYY-MM-DD` of a calendar
day is taken as a date; the other forms `Date.parse` accepts depend on the
engine and count as the `TypeError` case. -/
def sqlDate (v : JVal) : Option (Option Int) :=
  match v with
  | .undefined => some none
  | .null => some none
  | .str s =>
    match parseIsoDate s.data with
    | some d => some (some d)
    | none => none
  | _ => none

/-! ## Storage -/

/-- A row of `Users`. -/
structure UserRow where
  Id : Int
  Username : Option String := none
  Password : Option String := none
  Role : Option String := none
  Email : Option String := none
  SchoolId : Option Int := none
  Permissions : Option String := none
  CreatedAt : Option Int := none
deriving DecidableEq, Repr

/-- A row of `Classes`. -/
structure ClassRow where
  Id : Int
  Name : Option String := none
  Section : Option String := none
  Room : Option String := none
  SchoolId : Option Int := none
  CreatedAt : Option Int := none
deriving DecidableEq, Repr

/-- A row of `Students`. -/
structure StudentRow where
  Id : Int
  Name : Option String := none
  RollNo : Option String := none
  ClassId : Option Int := none
  Email : Option String := none
  Gender : Option String := none
  Phone : Option String := none
  CreatedAt : Option Int := none
deriving DecidableEq, Repr

/-- A row of `Teachers`. -/
structure TeacherRow where
  Id : Int
  Name : Option String := none
  SchoolId : Option Int := none
  ClassId : Option Int := none
  Email : Option String := none
  Phone : Option String := none
  CreatedAt : Option Int := none
  DateOfBirth : Option Int := none
deriving DecidableEq, Repr

/-- A row of `Attendance`; `Date` is a calendar day `YYYYMMDD`. -/
structure AttendanceRow where
  Id : Int
  StudentId : Option Int := none
  TeacherId : Option Int := none
  Date : Option Int := none
  Status : Option String := none
deriving DecidableEq, Repr

/-- A row of `Fees`, with every column some statement of the server names.
`Balance` is a column the server only reads. -/
structure FeeRow where
  Id : Int
  StudentId : Option Int := none
  Amount : Option Int := none
  Submitted : Option Int := none
  Fine : Option Int := none
  DueDate : Option Int := none
  Status : Option String := none
  AmountPaid : Option Int := none
  TotalFee : Option Int := none
  Balance : Option Int := none
  CreatedAt : Option Int := none
deriving DecidableEq, Repr

/-- A row of `Events`. -/
structure EventRow where
  Id : Int
  Title : Option String := none
  Date : Option Int := none
  Description : Option String := none
  SchoolId : Option Int := none
  CreatedAt : Option Int := none
deriving DecidableEq, Repr

/-- A row of `Holidays`. -/
structure HolidayRow where
  Id : Int
  Name : Option String := none
  StartDate : Option Int := none
  EndDate : Option Int := none
  Description : Option String := none
  SchoolId : Option Int := none
  CreatedAt : Option Int := none
deriving DecidableEq, Repr

/-- A row of `Notices`. -/
structure NoticeRow where
  Id : Int
  Title : Option String := none
  Description : Option String := none
  Date : Option Int := none
  SchoolId : Option Int := none
  CreatedAt : Option Int := none
deriving DecidableEq, Repr

/-- A row of `Schools`. -/
structure SchoolRow where
  Id : Int
  Name : Option String := none
  Address : Option String := none
  Contact : Option String := none
  Email : Option String := none
deriving DecidableEq, Repr

/-- A row of `Timetables`. -/
structure TimetableRow where
  Id : Int
  ClassId : Option Int := none
  Day : Option String := none
  Period : Option Int := none
  Subject : Option String := none
  TeacherId : Option Int := none
deriving DecidableEq, Repr

/-- A row of `Staff`. -/
structure StaffRow where
  Id : Int
  Name : Option String := none
  Email : Option String := none
  Phone : Option String := none
  SchoolId : Option Int := none
deriving DecidableEq, Repr

/-- A row of `Subjects`. -/
structure SubjectRow where
  Id : Int
  Name : Option String := none
  ClassId : Option Int := none
  TeacherId : Option Int := none
  PeriodsPerWeek : Option Int := none
  CreatedAt : Option Int := none
deriving DecidableEq, Repr

/-- A row of `Salaries`, with every column some statement of the server names.
`Month` is a calendar day `YYYYMMDD`. -/
structure SalaryRow where
  Id : Int
  TeacherId : Option Int := none
  StaffId : Option Int := none
  Amount : Option Int := none
  Month : Option Int := none
  Year : Option Int := none
  Status : Option String := none
  Tax : Option Int := none
  PF : Option Int := none
  Bonus : Option Int := none
  CreatedAt : Option Int := none
deriving DecidableEq, Repr

/-- The storage state: the tables the handlers below touch. -/
structure DB where
  Users : List UserRow := []
  Classes : List ClassRow := []
  Students : List StudentRow := []
  Teachers : List TeacherRow := []
  Attendance : List AttendanceRow := []
  Fees : List FeeRow := []
  Events : List EventRow := []
  Holidays : List HolidayRow := []
  Notices : List NoticeRow := []
  Staff : List StaffRow := []
  Subjects : List SubjectRow := []
  Salaries : List SalaryRow := []
  Schools : List SchoolRow := []
  Timetables : List TimetableRow := []
deriving DecidableEq, Repr

/-- The comparison `a = b` of SQL: `NULL` equals nothing. -/
def sqlEq (a b : Option Int) : Bool :=
  match a, b with
  | some x, some y => x == y
  | _, _ => false

/-- The next value of an identity column. -/
def freshId (ids : List Int) : Int :=
  ids.foldl max 0 + 1

/-- The first row of `SELECT ... FROM Users WHERE Id = @key`. -/
def selectUser (db : DB) (key : Option Int) : Option UserRow :=
  db.Users.find? (fun r => sqlEq (some r.Id) key)

/-- The first row of `SELECT ... FROM Classes WHERE Id = @key`. -/
def selectClass (db : DB) (key : Option Int) : Option ClassRow :=
  db.Classes.find? (fun r => sqlEq (some r.Id) key)

/-- The first row of `SELECT ... FROM Students WHERE Id = @key`. -/
def selectStudent (db : DB) (key : Option Int) : Option StudentRow :=
  db.Students.find? (fun r => sqlEq (some r.Id) key)

/-- The first row of `SELECT ... FROM Teachers WHERE Id = @key`. -/
def selectTeacher (db : DB) (key : Option Int) : Option TeacherRow :=
  db.Teachers.find? (fun r => sqlEq (some r.Id) key)

/-- The order of SQL Server on a nullable column: `NULL` is the lowest. -/
def sqlLe (a b : Option Int) : Bool :=
  match a, b with
  | none, _ => true
  | some _, none => false
  | some x, some y => decide (x ≤ y)

/-- The clause `ORDER BY Date DESC` on attendance rows. -/
def orderByDateDesc (rows : List AttendanceRow) : List AttendanceRow :=
  rows.insertionSort (fun a b => sqlLe b.Date a.Date = true)

/-! ## Requests and responses -/

/-- The object `req.user` that `authenticateToken` builds:
`{ userId, role, schoolId }`. -/
structure ReqUser where
  userId : Int
  role : Option String
  schoolId : Option Int
deriving DecidableEq, Repr

/-- Property access on `req.user` by name: the object has the three
properties `userId`, `role` and `schoolId` and no other. -/
def ReqUser.get (u : ReqUser) (k : String) : JVal :=
  if k = "userId" then JVal.num u.userId
  else if k = "role" then ofSqlStr u.role
  else if k = "schoolId" then ofSqlInt u.schoolId
  else JVal.undefined

/-- The body of a response. -/
inductive Body where
  | empty
  | message (m : String)
  | row (r : Obj)
  | rows (rs : List Obj)
  | messageFee (m : String) (fee : Obj)
  | monthly (teachers students : List Int)
deriving DecidableEq, Repr

/-- What a handler leaves: the response and the storage state. -/
structure Outcome where
  status : Nat
  body : Body
  db : DB
deriving DecidableEq, Repr

/-- The response `res.status(s).json({ message: m })` with storage as it is. -/
def reply (db : DB) (s : Nat) (m : String) : Outcome :=
  { status := s, body := Body.message m, db := db }

/-- The strict inequality `a !== b` of two numbers: `NaN` differs from
everything. -/
def numNe (a b : Option Int) : Bool :=
  match a, b with
  | some x, some y => x != y
  | _, _ => true

/-! ## The principal resolver -/

/-- The pieces of `s.split(' ')`. -/
def splitSpace : List Char → List (List Char)
  | [] => [[]]
  | c :: cs =>
    if c = ' ' then [] :: splitSpace cs
    else
      match splitSpace cs with
      | [] => [[c]]
      | p :: ps => (c :: p) :: ps

/-- The result of the middleware: a response, or `next()` with `req.user`. -/
inductive AuthResult where
  | respond (status : Nat) (m : String)
  | next (user : ReqUser)
deriving DecidableEq, Repr

/-- The middleware `authenticateToken` (lines 45-64).  `verify` is
`jwt.verify` with the configured secret: the decoded payload, or `none` when
it throws. -/
def authenticateToken (verify : String → Option Obj) (db : DB)
    (authHeader : Option String) : AuthResult :=
  let token : Option (List Char) :=
    match authHeader with
    | none => none
    | some h => if h = "" then none else (splitSpace h.data)[1]?
  match token with
  | none => AuthResult.respond 401 "Access token required"
  | some [] => AuthResult.respond 401 "Access token required"
  | some (c :: cs) =>
    match verify (String.mk (c :: cs)) with
    | none => AuthResult.respond 403 "Invalid token"
    | some decoded =>
      match sqlInt (decoded.get "userId") with
      | none => AuthResult.respond 403 "Invalid token"
      | some key =>
        match selectUser db key with
        | none => AuthResult.respond 404 "User not found"
        | some user =>
          AuthResult.next { userId := user.Id, role := user.Role, schoolId := user.SchoolId }

/-- A route `app.METHOD(path, authenticateToken, handler)`. -/
def route (verify : String → Option Obj) (db : DB) (authHeader : Option String)
    (handler : ReqUser → Outcome) : Outcome :=
  match authenticateToken verify db authHeader with
  | AuthResult.respond s m => reply db s m
  | AuthResult.next user => handler user

/-! ## Classes -/

/-- The handler `POST /api/classes` (lines 476-495). -/
def postClasses (db : DB) (user : ReqUser) (body : Obj) : Outcome :=
  let name := body.get "name"
  let sect := body.get "section"
  let room := body.get "room"
  let schoolId := body.get "schoolId"
  if user.role ≠ some "Admin" ∧
      (user.role ≠ some "School" ∨ ofSqlInt user.schoolId ≠ schoolId) then
    reply db 403 "Access denied"
  else
    match sqlInt schoolId with
    | none => reply db 500 "Error adding class"
    | some sid =>
      { status := 201
        body := Body.message "Class added successfully"
        db := { db with
          Classes := db.Classes ++
            [{ Id := freshId (db.Classes.map (fun r => r.Id))
               Name := sqlNVarChar name
               Section := sqlNVarChar sect
               Room := sqlNVarChar room
               SchoolId := sid }] } }

/-- The handler `DELETE /api/classes/:id` (lines 520-541). -/
def deleteClasses (db : DB) (user : ReqUser) (id : Int) : Outcome :=
  match selectClass db (some id) with
  | none => reply db 404 "Class not found"
  | some classData =>
    if user.role ≠ some "Admin" ∧
        (user.role ≠ some "School" ∨ classData.SchoolId ≠ user.schoolId) then
      reply db 403 "Access denied"
    else
      { status := 200
        body := Body.message "Class deleted successfully"
        db := { db with Classes := db.Classes.filter (fun r => !(r.Id == id)) } }

/-! ## Attendance -/

/-- The columns `Id, StudentId, Date, Status` of an attendance row. -/
def studentAttendanceObj (r : AttendanceRow) : Obj :=
  [("Id", JVal.num r.Id), ("StudentId", ofSqlInt r.StudentId),
   ("Date", ofSqlInt r.Date), ("Status", ofSqlStr r.Status)]

/-- The columns `Id, TeacherId, Date, Status` of an attendance row. -/
def teacherAttendanceObj (r : AttendanceRow) : Obj :=
  [("Id", JVal.num r.Id), ("TeacherId", ofSqlInt r.TeacherId),
   ("Date", ofSqlInt r.Date), ("Status", ofSqlStr r.Status)]

/-- The handler `GET /api/attendance/student/:studentId` (lines 1576-1609). -/
def getAttendanceStudent (db : DB) (user : ReqUser) (studentId : Int) : Outcome :=
  match selectStudent db (some studentId) with
  | none => reply db 404 "Student not found"
  | some student =>
    match selectClass db student.ClassId with
    | none => reply db 404 "Class not found"
    | some classData =>
      if user.role = some "Student" ∧
          numNe (parseInt (JVal.num user.userId)) (parseInt (JVal.num studentId)) = true then
        reply db 403 "Access denied: Students can only view their own attendance"
      else if user.role ≠ some "Admin" ∧ user.role ≠ some "Teacher" ∧
          classData.SchoolId ≠ user.schoolId then
        reply db 403 "Access denied: You can only view attendance in your own school"
      else
        { status := 200
          body := Body.rows ((orderByDateDesc
            (db.Attendance.filter (fun a => sqlEq a.StudentId (some studentId)))).map
              studentAttendanceObj)
          db := db }

/-- The handler `GET /api/attendance/teacher/:teacherId` (lines 1611-1638). -/
def getAttendanceTeacher (db : DB) (user : ReqUser) (teacherId : Int) : Outcome :=
  match selectTeacher db (some teacherId) with
  | none => reply db 404 "Teacher not found"
  | some teacher =>
    if user.role = some "Teacher" ∧
        numNe (parseInt (JVal.num user.userId)) (parseInt (JVal.num teacherId)) = true then
      reply db 403 "Access denied: Teachers can only view their own attendance"
    else if user.role ≠ some "Admin" ∧ user.role ≠ some "School" ∧
        teacher.SchoolId ≠ user.schoolId then
      reply db 403 "Access denied: You can only view attendance in your own school"
    else
      { status := 200
        body := Body.rows ((orderByDateDesc
          (db.Attendance.filter (fun a => sqlEq a.TeacherId (some teacherId)))).map
            teacherAttendanceObj)
        db := db }

/-- The student branch of `POST /api/attendance` (lines 1650-1678), after the
test `if (studentId)`. -/
def postAttendanceStudent (db : DB) (user : ReqUser) (studentId date status : JVal) :
    Outcome :=
  match sqlInt studentId with
  | none => reply db 500 "Error adding attendance record"
  | some key =>
    match selectStudent db key with
    | none => reply db 404 "Student not found"
    | some student =>
      -- `classData.SchoolId` throws when the class row is missing
      let denied : Option Bool :=
        if user.role ≠ some "Admin" ∧ user.role ≠ some "Teacher" then
          match selectClass db student.ClassId with
          | none => none
          | some classData => some (decide (classData.SchoolId ≠ user.schoolId))
        else some false
      match denied with
      | none => reply db 500 "Error adding attendance record"
      | some true => reply db 403 "Access denied"
      | some false =>
        match sqlDate date with
        | none => reply db 500 "Error adding attendance record"
        | some day =>
          if (db.Attendance.filter
              (fun a => sqlEq a.StudentId key && sqlEq a.Date day)).length > 0 then
            reply db 400 "Attendance record already exists for this student on this date"
          else
            { status := 201
              body := Body.message "Attendance record added successfully"
              db := { db with
                Attendance := db.Attendance ++
                  [{ Id := freshId (db.Attendance.map (fun r => r.Id))
                     StudentId := key
                     Date := day
                     Status := sqlNVarChar status }] } }

/-- The teacher branch of `POST /api/attendance` (lines 1679-1702), after the
test `else if (teacherId)`. -/
def postAttendanceTeacher (db : DB) (user : ReqUser) (teacherId date status : JVal) :
    Outcome :=
  match sqlInt teacherId with
  | none => reply db 500 "Error adding attendance record"
  | some key =>
    match selectTeacher db key with
    | none => reply db 404 "Teacher not found"
    | some teacher =>
      if user.role ≠ some "Admin" ∧ user.role ≠ some "School" ∧
          teacher.SchoolId ≠ user.schoolId then
        reply db 403 "Access denied"
      else
        match sqlDate date with
        | none => reply db 500 "Error adding attendance record"
        | some day =>
          if (db.Attendance.filter
              (fun a => sqlEq a.TeacherId key && sqlEq a.Date day)).length > 0 then
            reply db 400 "Attendance record already exists for this teacher on this date"
          else
            { status := 201
              body := Body.message "Attendance record added successfully"
              db := { db with
                Attendance := db.Attendance ++
                  [{ Id := freshId (db.Attendance.map (fun r => r.Id))
                     TeacherId := key
                     Date := day
                     Status := sqlNVarChar status }] } }

/-- The handler `POST /api/attendance` (lines 1640-1711). -/
def postAttendance (db : DB) (user : ReqUser) (body : Obj) : Outcome :=
  let studentId := body.get "studentId"
  let teacherId := body.get "teacherId"
  let date := body.get "date"
  let status := body.get "status"
  if !date.truthy || !status.truthy then
    reply db 400 "Date and status are required"
  else if studentId.truthy then
    postAttendanceStudent db user studentId date status
  else if teacherId.truthy then
    postAttendanceTeacher db user teacherId date status
  else
    reply db 400 "Either studentId or teacherId must be provided"

/-! ## Fees -/

/-- The sum `a + b` of SQL: `NULL` absorbs. -/
def sqlAdd (a b : Option Int) : Option Int :=
  match a, b with
  | some x, some y => some (x + y)
  | _, _ => none

/-- The columns `Id, TotalFee, AmountPaid, Balance` of a fee row. -/
def feeObj (r : FeeRow) : Obj :=
  [("Id", JVal.num r.Id), ("TotalFee", ofSqlInt r.TotalFee),
   ("AmountPaid", ofSqlInt r.AmountPaid), ("Balance", ofSqlInt r.Balance)]

/-- The handler `POST /api/fees` (lines 1306-1337). -/
def postFees (db : DB) (user : ReqUser) (body : Obj) : Outcome :=
  let studentId := body.get "studentId"
  let amount := body.get "amount"
  let submitted := body.get "submitted"
  let fine := body.get "fine"
  let dueDate := body.get "dueDate"
  let status := body.get "status"
  match sqlInt studentId with
  | none => reply db 500 "Error adding fee record"
  | some key =>
    match selectStudent db key with
    | none => reply db 404 "Student not found"
    | some student =>
      -- `classData.SchoolId` throws when the class row is missing
      let denied : Option Bool :=
        if user.role ≠ some "Admin" then
          match selectClass db student.ClassId with
          | none => none
          | some classData => some (decide (classData.SchoolId ≠ user.schoolId))
        else some false
      match denied with
      | none => reply db 500 "Error adding fee record"
      | some true => reply db 403 "Access denied"
      | some false =>
        match sqlDecimal amount, sqlDecimal (jsOr submitted (JVal.num 0)),
            sqlDecimal (jsOr fine (JVal.num 0)), sqlDate dueDate with
        | some a, some sb, some f, some due =>
          { status := 201
            body := Body.message "Fee record added successfully"
            db := { db with
              Fees := db.Fees ++
                [{ Id := freshId (db.Fees.map (fun r => r.Id))
                   StudentId := key
                   Amount := a
                   Submitted := sb
                   Fine := f
                   DueDate := due
                   Status := sqlNVarChar status }] } }
        | _, _, _, _ => reply db 500 "Error adding fee record"

/-- The handler `PUT /api/fees/:id` (lines 1339-1374).  It does not read
`req.user`. -/
def putFees (db : DB) (_user : ReqUser) (id : Int) (body : Obj) : Outcome :=
  let amountPaid := body.get "amountPaid"
  if !amountPaid.truthy || jsIsNaN amountPaid || ltZero amountPaid then
    reply db 400 "Invalid amount paid."
  else
    match sqlDecimal amountPaid with
    | none => reply db 500 "Error updating fee"
    | some paid =>
      let db1 : DB := { db with
        Fees := db.Fees.map (fun r =>
          if r.Id = id then { r with AmountPaid := sqlAdd r.AmountPaid paid } else r) }
      match db1.Fees.filter (fun r => r.Id == id) with
      | [] => reply db1 404 "Fee record not found."
      | r :: _ =>
        { status := 200
          body := Body.messageFee "Fee updated successfully" (feeObj r)
          db := db1 }

/-! ## Users -/

/-- The handler `PUT /api/users/:id` registered first (lines 355-385).  `hash`
is `bcrypt.hash(_, 10)`, which rejects a value that is not a string. -/
def putUsers (hash : String → String) (db : DB) (user : ReqUser) (id : Int)
    (body : Obj) : Outcome :=
  let username := body.get "username"
  let password := body.get "password"
  let role := body.get "role"
  let email := body.get "email"
  let schoolId := body.get "schoolId"
  if user.role ≠ some "Admin" ∧ user.role ≠ some "School" then
    reply db 403 "Access denied"
  else
    match sqlInt schoolId with
    | none => reply db 500 "Error updating user"
    | some sid =>
      if password.truthy then
        match password with
        | JVal.str p =>
          { status := 200
            body := Body.message "User updated successfully"
            db := { db with
              Users := db.Users.map (fun r =>
                if r.Id = id then
                  { r with
                    Username := sqlNVarChar username
                    Role := sqlNVarChar role
                    Email := sqlNVarChar email
                    SchoolId := sid
                    Password := some (hash p) }
                else r) } }
        | _ => reply db 500 "Error updating user"
      else
        { status := 200
          body := Body.message "User updated successfully"
          db := { db with
            Users := db.Users.map (fun r =>
              if r.Id = id then
                { r with
                  Username := sqlNVarChar username
                  Role := sqlNVarChar role
                  Email := sqlNVarChar email
                  SchoolId := sid }
              else r) } }

/-- The handler `DELETE /api/users/:id` registered first (lines 387-403). -/
def deleteUsers (db : DB) (user : ReqUser) (id : Int) : Outcome :=
  if user.role ≠ some "Admin" ∧ user.role ≠ some "School" then
    reply db 403 "Access denied"
  else
    { status := 200
      body := Body.message "User deleted successfully"
      db := { db with Users := db.Users.filter (fun r => !(r.Id == id)) } }

/-- The handler `PUT /api/users/:id/change-password` (lines 4211-4253).  It
reads the properties `Role` and `SchoolId` of `req.user`. -/
def changePassword (hash : String → String) (db : DB) (user : ReqUser) (id : Int)
    (body : Obj) : Outcome :=
  let newPassword := body.get "newPassword"
  match selectUser db (some id) with
  | none => reply db 404 "User not found"
  | some targetUser =>
    let denied : Option String :=
      if user.get "Role" = JVal.str "Admin" then none
      else if user.get "Role" = JVal.str "School" then
        if ofSqlInt targetUser.SchoolId ≠ user.get "SchoolId" ∨
            targetUser.Role = some "Admin" then
          some "Access denied: Can only change passwords for users under your school"
        else none
      else some "Access denied"
    match denied with
    | some m => reply db 403 m
    | none =>
      match newPassword with
      | JVal.str p =>
        { status := 200
          body := Body.message "Password updated successfully"
          db := { db with
            Users := db.Users.map (fun r =>
              if r.Id = id then { r with Password := some (hash p) } else r) } }
      | _ => reply db 500 "Server error while changing password"

/-- The handler `DELETE /api/accounts/:id` registered first (lines 3901-3918).
It does not read `req.user`. -/
def deleteAccounts (db : DB) (_user : ReqUser) (id : Int) : Outcome :=
  if (db.Users.filter (fun r => r.Id == id)).length = 0 then
    reply db 404 "User not found"
  else
    { status := 204
      body := Body.empty
      db := { db with Users := db.Users.filter (fun r => !(r.Id == id)) } }

/-! ## Teachers -/

/-- The columns `Id, Name, SchoolId, ClassId` of a teacher row. -/
def teacherObj (r : TeacherRow) : Obj :=
  [("Id", JVal.num r.Id), ("Name", ofSqlStr r.Name),
   ("SchoolId", ofSqlInt r.SchoolId), ("ClassId", ofSqlInt r.ClassId)]

/-- The handler `GET /api/teachers/:teacherId` (lines 3164-3197).  It takes the
user id from the property `id` of `req.user`. -/
def getTeacher (db : DB) (user : ReqUser) (teacherId : Int) : Outcome :=
  let userId := user.get "id"
  match selectTeacher db (some teacherId) with
  | none => reply db 404 "Teacher not found"
  | some teacher =>
    if user.role = some "School" ∧ teacher.SchoolId ≠ user.schoolId then
      reply db 403 "Access denied"
    else if user.role = some "Teacher" ∧ JVal.num teacher.Id ≠ userId then
      reply db 403 "Access denied"
    else
      { status := 200, body := Body.row (teacherObj teacher), db := db }

/-! ## Events, holidays and notices -/

/-- The columns `Id, Title, Date, Description, SchoolId, CreatedAt`. -/
def eventObj (r : EventRow) : Obj :=
  [("Id", JVal.num r.Id), ("Title", ofSqlStr r.Title), ("Date", ofSqlInt r.Date),
   ("Description", ofSqlStr r.Description), ("SchoolId", ofSqlInt r.SchoolId),
   ("CreatedAt", ofSqlInt r.CreatedAt)]

/-- The columns `Id, Name, StartDate, EndDate, Description, SchoolId, CreatedAt`. -/
def holidayObj (r : HolidayRow) : Obj :=
  [("Id", JVal.num r.Id), ("Name", ofSqlStr r.Name), ("StartDate", ofSqlInt r.StartDate),
   ("EndDate", ofSqlInt r.EndDate), ("Description", ofSqlStr r.Description),
   ("SchoolId", ofSqlInt r.SchoolId), ("CreatedAt", ofSqlInt r.CreatedAt)]

/-- The columns `Id, Title, Description, Date, SchoolId, CreatedAt`. -/
def noticeObj (r : NoticeRow) : Obj :=
  [("Id", JVal.num r.Id), ("Title", ofSqlStr r.Title),
   ("Description", ofSqlStr r.Description), ("Date", ofSqlInt r.Date),
   ("SchoolId", ofSqlInt r.SchoolId), ("CreatedAt", ofSqlInt r.CreatedAt)]

/-- The time value of `new Date(v)` for a value of the shape `YYYY-MM-DD`, as
the day `YYYYMMDD`; `none` is an invalid date. -/
def newDate : JVal → Option Int
  | .str s => parseIsoDate s.data
  | _ => none

/-- The comparison `a < b` of two dates: false when either is invalid. -/
def dateLt (a b : Option Int) : Bool :=
  match a, b with
  | some x, some y => decide (x < y)
  | _, _ => false

/-- The handler `PUT /api/events/:id` (lines 1028-1092). -/
def putEvents (db : DB) (user : ReqUser) (id : Int) (body : Obj) : Outcome :=
  let title := body.get "title"
  let date := body.get "date"
  let description := body.get "description"
  let schoolId := body.get "schoolId"
  match parseInt (JVal.num id) with
  | none => reply db 400 "Invalid event ID"
  | some parsedId =>
    if !title.truthy || !date.truthy || !description.truthy || !schoolId.truthy then
      reply db 400 "Title, date, description, and schoolId are required"
    else if !dateRegexTest date then
      reply db 400 "Invalid date format. Use YYYY-MM-DD"
    else
      match parseInt schoolId with
      | none => reply db 400 "Invalid schoolId"
      | some parsedSchoolId =>
        match db.Events.find? (fun r => r.Id == parsedId) with
        | none => reply db 404 "Event not found"
        | some event =>
          if user.role ≠ some "Admin" ∧
              (user.role ≠ some "School" ∨ event.SchoolId ≠ user.schoolId) then
            reply db 403 "Access denied"
          else
            match sqlDate date, sqlInt (JVal.num parsedSchoolId) with
            | some day, some sid =>
              let db1 : DB := { db with
                Events := db.Events.map (fun r =>
                  if r.Id = parsedId then
                    { r with
                      Title := sqlNVarChar title
                      Date := day
                      Description := sqlNVarChar description
                      SchoolId := sid }
                  else r) }
              match db1.Events.filter (fun r => r.Id == parsedId) with
              | [] => reply db1 404 "Event not found"
              | r :: _ => { status := 200, body := Body.row (eventObj r), db := db1 }
            | _, _ => reply db 500 "Error updating event"

/-- The handler `PUT /api/holidays/:id` (lines 2278-2350). -/
def putHolidays (db : DB) (user : ReqUser) (id : Int) (body : Obj) : Outcome :=
  let name := body.get "name"
  let startDate := body.get "startDate"
  let endDate := body.get "endDate"
  let description := body.get "description"
  let schoolId := body.get "schoolId"
  match parseInt (JVal.num id) with
  | none => reply db 400 "Invalid holiday ID"
  | some parsedId =>
    if !name.truthy || !startDate.truthy || !endDate.truthy || !description.truthy ||
        !schoolId.truthy then
      reply db 400 "Name, start date, end date, description, and schoolId are required"
    else if !dateRegexTest startDate || !dateRegexTest endDate then
      reply db 400 "Invalid date format. Use YYYY-MM-DD"
    else if dateLt (newDate endDate) (newDate startDate) then
      reply db 400 "End date cannot be before start date"
    else
      match parseInt schoolId with
      | none => reply db 400 "Invalid schoolId"
      | some parsedSchoolId =>
        match db.Holidays.find? (fun r => r.Id == parsedId) with
        | none => reply db 404 "Holiday not found"
        | some holiday =>
          if user.role ≠ some "Admin" ∧
              (user.role ≠ some "School" ∨ holiday.SchoolId ≠ user.schoolId) then
            reply db 403 "Access denied"
          else
            match sqlDate startDate, sqlDate endDate, sqlInt (JVal.num parsedSchoolId) with
            | some d1, some d2, some sid =>
              let db1 : DB := { db with
                Holidays := db.Holidays.map (fun r =>
                  if r.Id = parsedId then
                    { r with
                      Name := sqlNVarChar name
                      StartDate := d1
                      EndDate := d2
                      Description := sqlNVarChar description
                      SchoolId := sid }
                  else r) }
              match db1.Holidays.filter (fun r => r.Id == parsedId) with
              | [] => reply db1 404 "Holiday not found"
              | r :: _ => { status := 200, body := Body.row (holidayObj r), db := db1 }
            | _, _, _ => reply db 500 "Error updating holiday"

/-- The handler `PUT /api/notices/:id` (lines 2125-2167). -/
def putNotices (db : DB) (user : ReqUser) (id : Int) (body : Obj) : Outcome :=
  let title := body.get "title"
  let description := body.get "description"
  let date := body.get "date"
  let schoolId := body.get "schoolId"
  match db.Notices.find? (fun r => r.Id == id) with
  | none => reply db 404 "Notice not found"
  | some notice =>
    if user.role ≠ some "Admin" ∧
        (user.role ≠ some "School" ∨ notice.SchoolId ≠ user.schoolId) then
      reply db 403 "Access denied"
    else if !title.truthy || !description.truthy || !date.truthy || !schoolId.truthy then
      reply db 400 "Title, description, date, and schoolId are required"
    else
      match sqlDate date, sqlInt schoolId with
      | some day, some sid =>
        let db1 : DB := { db with
          Notices := db.Notices.map (fun r =>
            if r.Id = id then
              { r with
                Title := sqlNVarChar title
                Description := sqlNVarChar description
                Date := day
                SchoolId := sid }
            else r) }
        match db1.Notices.filter (fun r => r.Id == id) with
        | [] => reply db1 404 "Notice not found"
        | r :: _ => { status := 200, body := Body.row (noticeObj r), db := db1 }
      | _, _ => reply db 500 "Error updating notice"

/-! ## Sample states -/

/-- Two schools: class 10, student 100 and teacher 7 belong to school 1;
class 20 and teacher 9 to school 2. -/
def sampleDB : DB :=
  { Users :=
      [{ Id := 1, Username := some "root", Role := some "Admin" },
       { Id := 2, Username := some "oak", Role := some "School", SchoolId := some 1 },
       { Id := 3, Username := some "elm", Role := some "School", SchoolId := some 2 },
       { Id := 7, Username := some "tia", Role := some "Teacher", SchoolId := some 1 },
       { Id := 9, Username := some "tom", Role := some "Teacher", SchoolId := some 2 },
       { Id := 100, Username := some "ana", Role := some "Student", SchoolId := some 1 },
       { Id := 101, Username := some "ben", Role := some "Student", SchoolId := some 2 }]
    Classes :=
      [{ Id := 10, Name := some "5A", SchoolId := some 1 },
       { Id := 20, Name := some "6B", SchoolId := some 2 }]
    Students :=
      [{ Id := 100, Name := some "Ana", ClassId := some 10 },
       { Id := 101, Name := some "Ben", ClassId := some 10 }]
    Teachers :=
      [{ Id := 7, Name := some "Tia", SchoolId := some 1 },
       { Id := 9, Name := some "Tom", SchoolId := some 2 }]
    Attendance :=
      [{ Id := 1, StudentId := some 100, Date := some 20250601, Status := some "Present" },
       { Id := 2, TeacherId := some 7, Date := some 20250601, Status := some "Present" },
       { Id := 3, StudentId := some 100, Date := some 20250602, Status := some "Absent" },
       { Id := 4, StudentId := some 101, Date := some 20250602, Status := some "Present" }]
    Fees :=
      [{ Id := 5, StudentId := some 100, Amount := some 500, Submitted := some 0,
         AmountPaid := some 0, TotalFee := some 500 }]
    Events :=
      [{ Id := 1, Title := some "Fair", Date := some 20250510, Description := some "d",
         SchoolId := some 1 }]
    Holidays :=
      [{ Id := 1, Name := some "Break", StartDate := some 20250601,
         EndDate := some 20250610, Description := some "d", SchoolId := some 1 }]
    Notices :=
      [{ Id := 1, Title := some "Exam", Description := some "d", Date := some 20250510,
         SchoolId := some 1 }] }

/-- A token check that accepts the token `t<n>` for the user ids of
`sampleDB`. -/
def sampleVerify (token : String) : Option Obj :=
  if token = "t1" then some [("userId", JVal.num 1)]
  else if token = "t2" then some [("userId", JVal.num 2)]
  else if token = "t3" then some [("userId", JVal.num 3)]
  else if token = "t7" then some [("userId", JVal.num 7)]
  else if token = "t9" then some [("userId", JVal.num 9)]
  else if token = "t100" then some [("userId", JVal.num 100)]
  else none

/-- A stand-in for the password hash. -/
def sampleHash (p : String) : String :=
  "#" ++ p

/-! ## Reading announcements -/

/-- A JavaScript number or `null`: `none` is `null`, `some none` is `NaN`. -/
abbrev NumOrNull := Option (Option Int)

/-- Truthiness of a number or `null`. -/
def numTruthy : NumOrNull → Bool
  | some (some n) => n != 0
  | _ => false

/-- The test `isNaN(p)` on a number or `null`. -/
def numIsNaN : NumOrNull → Bool
  | some none => true
  | _ => false

/-- A number or `null` as a parameter of type `sql.Int`. -/
def sqlIntNum : NumOrNull → Option (Option Int)
  | none => some none
  | some none => none
  | some (some n) => if -2147483648 ≤ n ∧ n ≤ 2147483647 then some (some n) else none

/-- The value of `p || null`. -/
def numOrNull (p : NumOrNull) : NumOrNull :=
  if numTruthy p then p else none

/-- The expression `v ? parseInt(v) : null`. -/
def parseIntOrNull (v : JVal) : NumOrNull :=
  if v.truthy then some (parseInt v) else none

/-- The clause `ORDER BY key DESC`. -/
def orderDesc {α : Type} (key : α → Option Int) (rows : List α) : List α :=
  rows.insertionSort (fun a b => sqlLe (key b) (key a) = true)

/-- The clause `ORDER BY key`. -/
def orderAsc {α : Type} (key : α → Option Int) (rows : List α) : List α :=
  rows.insertionSort (fun a b => sqlLe (key a) (key b) = true)

/-- The handler `GET /api/events` (lines 953-981); `query` is `req.query`. -/
def getEvents (db : DB) (user : ReqUser) (query : Obj) : Outcome :=
  let requestedSchoolId := parseIntOrNull (query.get "schoolId")
  if user.role = some "Admin" then
    if numTruthy requestedSchoolId then
      match sqlIntNum requestedSchoolId with
      | none => reply db 500 "Error fetching events"
      | some sid =>
        { status := 200
          body := Body.rows ((orderDesc (fun r => r.Date)
            (db.Events.filter (fun r => sqlEq r.SchoolId sid))).map eventObj)
          db := db }
    else
      { status := 200
        body := Body.rows ((orderDesc (fun r => r.Date) db.Events).map eventObj)
        db := db }
  else if user.role = some "School" ∨ user.role = some "Teacher" ∨
      user.role = some "Student" then
    { status := 200
      body := Body.rows ((orderDesc (fun r => r.Date)
        (db.Events.filter (fun r => sqlEq r.SchoolId user.schoolId))).map eventObj)
      db := db }
  else
    reply db 403 "Access denied"

/-- The handler `GET /api/notices` (lines 2065-2093). -/
def getNotices (db : DB) (user : ReqUser) (query : Obj) : Outcome :=
  let requestedSchoolId := parseIntOrNull (query.get "schoolId")
  if user.role = some "Admin" then
    if numTruthy requestedSchoolId then
      match sqlIntNum requestedSchoolId with
      | none => reply db 500 "Error fetching notices"
      | some sid =>
        { status := 200
          body := Body.rows ((orderDesc (fun r => r.CreatedAt)
            (db.Notices.filter (fun r => sqlEq r.SchoolId sid))).map noticeObj)
          db := db }
    else
      { status := 200
        body := Body.rows ((orderDesc (fun r => r.CreatedAt) db.Notices).map noticeObj)
        db := db }
  else if user.role = some "School" ∨ user.role = some "Teacher" ∨
      user.role = some "Student" then
    { status := 200
      body := Body.rows ((orderDesc (fun r => r.CreatedAt)
        (db.Notices.filter (fun r => sqlEq r.SchoolId user.schoolId))).map noticeObj)
      db := db }
  else
    reply db 403 "Access denied"

/-- The handler `GET /api/holidays` (lines 2195-2223). -/
def getHolidays (db : DB) (user : ReqUser) (query : Obj) : Outcome :=
  let requestedSchoolId := parseIntOrNull (query.get "schoolId")
  if user.role = some "Admin" then
    if numTruthy requestedSchoolId then
      match sqlIntNum requestedSchoolId with
      | none => reply db 500 "Error fetching holidays"
      | some sid =>
        { status := 200
          body := Body.rows ((orderAsc (fun r => r.StartDate)
            (db.Holidays.filter (fun r => sqlEq r.SchoolId sid))).map holidayObj)
          db := db }
    else
      { status := 200
        body := Body.rows ((orderAsc (fun r => r.StartDate) db.Holidays).map holidayObj)
        db := db }
  else if user.role = some "School" ∨ user.role = some "Teacher" ∨
      user.role = some "Student" then
    { status := 200
      body := Body.rows ((orderAsc (fun r => r.StartDate)
        (db.Holidays.filter (fun r => sqlEq r.SchoolId user.schoolId))).map holidayObj)
      db := db }
  else
    reply db 403 "Access denied"

/-! ## Students of a class, and deletes through the ownership chain -/

/-- A row of the join of `Students` with `Classes`: the columns
`Id, Name, RollNo, Email, Gender, ClassId` and the class name as `Class`. -/
def studentClassObj (s : StudentRow) (c : ClassRow) : Obj :=
  [("Id", JVal.num s.Id), ("Name", ofSqlStr s.Name), ("RollNo", ofSqlStr s.RollNo),
   ("Email", ofSqlStr s.Email), ("Gender", ofSqlStr s.Gender),
   ("ClassId", ofSqlInt s.ClassId), ("Class", ofSqlStr c.Name)]

/-- The handler `GET /api/students/class/:classId` (lines 588-621). -/
def getStudentsByClass (db : DB) (user : ReqUser) (classId : Int) : Outcome :=
  match selectClass db (some classId) with
  | none => reply db 404 "Class not found"
  | some classData =>
    if user.role ≠ some "Admin" ∧ classData.SchoolId ≠ user.schoolId then
      reply db 403 "Access denied: You can only view students in your own school"
    else
      { status := 200
        body := Body.rows
          ((db.Students.filter (fun s => sqlEq s.ClassId (some classId))).flatMap (fun s =>
            (db.Classes.filter (fun c => sqlEq s.ClassId (some c.Id))).map
              (studentClassObj s)))
        db := db }

/-- The handler `DELETE /api/students/:id` (lines 741-780). -/
def deleteStudents (db : DB) (user : ReqUser) (id : Int) : Outcome :=
  match selectStudent db (some id) with
  | none => reply db 404 "Student not found"
  | some student =>
    match selectClass db student.ClassId with
    | none => reply db 404 "Class not found"
    | some classData =>
      if user.role ≠ some "Admin" ∧ classData.SchoolId ≠ user.schoolId then
        reply db 403 "Access denied: You can only delete students in your own school"
      else if (db.Students.filter (fun r => r.Id == id)).length = 0 then
        reply db 404 "Student not found"
      else
        { status := 204
          body := Body.empty
          db := { db with Students := db.Students.filter (fun r => !(r.Id == id)) } }

/-- The handler `DELETE /api/fees/:id` (lines 1376-1408). -/
def deleteFees (db : DB) (user : ReqUser) (id : Int) : Outcome :=
  match db.Fees.find? (fun r => r.Id == id) with
  | none => reply db 404 "Fee record not found"
  | some fee =>
    match selectStudent db fee.StudentId with
    | none => reply db 404 "Student not found"
    | some student =>
      -- `classData.SchoolId` throws when the class row is missing
      let denied : Option Bool :=
        if user.role ≠ some "Admin" then
          match selectClass db student.ClassId with
          | none => none
          | some classData => some (decide (classData.SchoolId ≠ user.schoolId))
        else some false
      match denied with
      | none => reply db 500 "Error deleting fee record"
      | some true => reply db 403 "Access denied"
      | some false =>
        { status := 200
          body := Body.message "Fee record deleted successfully"
          db := { db with Fees := db.Fees.filter (fun r => !(r.Id == id)) } }

/-- The handler `DELETE /api/subjects/:id` registered first (lines 1919-1946). -/
def deleteSubjects (db : DB) (user : ReqUser) (id : Int) : Outcome :=
  match db.Subjects.find? (fun r => r.Id == id) with
  | none => reply db 404 "Subject not found"
  | some subject =>
    -- `classData.SchoolId` throws when the class row is missing
    let denied : Option Bool :=
      if user.role ≠ some "Admin" then
        match selectClass db subject.ClassId with
        | none => none
        | some classData => some (decide (classData.SchoolId ≠ user.schoolId))
      else some false
    match denied with
    | none => reply db 500 "Error deleting subject"
    | some true => reply db 403 "Access denied"
    | some false =>
      { status := 200
        body := Body.message "Subject deleted successfully"
        db := { db with Subjects := db.Subjects.filter (fun r => !(r.Id == id)) } }

/-! ## Salaries: the handlers under `/api/salaries` -/

/-- The first row of `SELECT ... FROM Staff WHERE Id = @key`. -/
def selectStaff (db : DB) (key : Option Int) : Option StaffRow :=
  db.Staff.find? (fun r => sqlEq (some r.Id) key)

/-- Truthiness of a nullable integer column read from a row. -/
def colTruthy : Option Int → Bool
  | some n => n != 0
  | none => false

/-- A text parameter stored into a date column: the server converts it; only
the form `YYYY-MM-DD` is taken as convertible, `none` is the conversion
error. -/
def textToDate : Option String → Option (Option Int)
  | none => some none
  | some t =>
    match parseIsoDate t.data with
    | some d => some (some d)
    | none => none

/-- The access checks of `POST /api/salaries` (lines 1450-1470): the early
response, or `none` when the handler goes on to the insert. -/
def postSalariesGuard (db : DB) (user : ReqUser) (teacherId staffId : JVal) :
    Option Outcome :=
  if teacherId.truthy then
    match sqlInt teacherId with
    | none => some (reply db 500 "Error adding salary record")
    | some key =>
      match selectTeacher db key with
      | none => some (reply db 404 "Teacher not found")
      | some teacher =>
        if user.role ≠ some "Admin" ∧ teacher.SchoolId ≠ user.schoolId then
          some (reply db 403 "Access denied")
        else none
  else if staffId.truthy then
    match sqlInt staffId with
    | none => some (reply db 500 "Error adding salary record")
    | some key =>
      match selectStaff db key with
      | none => some (reply db 404 "Staff not found")
      | some staff =>
        if user.role ≠ some "Admin" ∧ staff.SchoolId ≠ user.schoolId then
          some (reply db 403 "Access denied")
        else none
  else some (reply db 400 "Either teacherId or staffId must be provided")

/-- The handler `POST /api/salaries` (lines 1444-1484). -/
def postSalaries (db : DB) (user : ReqUser) (body : Obj) : Outcome :=
  let teacherId := body.get "teacherId"
  let staffId := body.get "staffId"
  let amount := body.get "amount"
  let month := body.get "month"
  let year := body.get "year"
  let status := body.get "status"
  match postSalariesGuard db user teacherId staffId with
  | some early => early
  | none =>
    match sqlInt (jsOr teacherId JVal.null), sqlInt (jsOr staffId JVal.null),
        sqlDecimal amount, textToDate (sqlNVarChar month), sqlInt year with
    | some t, some st, some a, some m, some y =>
      { status := 201
        body := Body.message "Salary record added successfully"
        db := { db with
          Salaries := db.Salaries ++
            [{ Id := freshId (db.Salaries.map (fun r => r.Id))
               TeacherId := t
               StaffId := st
               Amount := a
               Month := m
               Year := y
               Status := sqlNVarChar status }] } }
    | _, _, _, _, _ => reply db 500 "Error adding salary record"

/-- The access checks of `PUT /api/salaries/:id` (lines 1499-1517) on the
stored row. -/
def putSalariesGuard (db : DB) (user : ReqUser) (salary : SalaryRow) : Option Outcome :=
  if colTruthy salary.TeacherId then
    match selectTeacher db salary.TeacherId with
    | none => some (reply db 404 "Teacher not found")
    | some teacher =>
      if user.role ≠ some "Admin" ∧ teacher.SchoolId ≠ user.schoolId then
        some (reply db 403 "Access denied")
      else none
  else if colTruthy salary.StaffId then
    match selectStaff db salary.StaffId with
    | none => some (reply db 404 "Staff not found")
    | some staff =>
      if user.role ≠ some "Admin" ∧ staff.SchoolId ≠ user.schoolId then
        some (reply db 403 "Access denied")
      else none
  else none

/-- The handler `PUT /api/salaries/:id` (lines 1486-1532). -/
def putSalaries (db : DB) (user : ReqUser) (id : Int) (body : Obj) : Outcome :=
  let teacherId := body.get "teacherId"
  let staffId := body.get "staffId"
  let amount := body.get "amount"
  let month := body.get "month"
  let year := body.get "year"
  let status := body.get "status"
  match db.Salaries.find? (fun r => r.Id == id) with
  | none => reply db 404 "Salary record not found"
  | some salary =>
    match putSalariesGuard db user salary with
    | some early => early
    | none =>
      match sqlInt (jsOr teacherId JVal.null), sqlInt (jsOr staffId JVal.null),
          sqlDecimal amount, textToDate (sqlNVarChar month), sqlInt year with
      | some t, some st, some a, some m, some y =>
        { status := 200
          body := Body.message "Salary record updated successfully"
          db := { db with
            Salaries := db.Salaries.map (fun r =>
              if r.Id = id then
                { r with
                  TeacherId := t
                  StaffId := st
                  Amount := a
                  Month := m
                  Year := y
                  Status := sqlNVarChar status }
              else r) } }
      | _, _, _, _, _ => reply db 500 "Error updating salary record"

/-! ## Validation of the accounts handlers -/

/-- The function `validateNumericField` (lines 2416-2423); `Except.error` is
the thrown `Error` with its message. -/
def validateNumericField (value : JVal) (fieldName : String)
    (maxValue : Int := 1000000) : Except String Int :=
  if value = JVal.undefined ∨ value = JVal.null then Except.ok 0
  else
    match parseFloat value with
    | none => Except.error (fieldName ++ " must be a numeric value.")
    | some num =>
      if num < 0 then Except.error (fieldName ++ " cannot be negative.")
      else if num > maxValue then
        Except.error (fieldName ++ " exceeds maximum allowed value (" ++
          toString maxValue ++ ").")
      else Except.ok num

/-- The function `validateSalaryStatus` (lines 2426-2433). -/
def validateSalaryStatus (status : JVal) : Except String String :=
  if !status.truthy then Except.ok "Not Credited"
  else
    match status with
    | JVal.str t =>
      if t = "Not Credited" ∨ t = "Credited" then Except.ok t
      else Except.error "Status must be one of: Not Credited, Credited."
    | _ => Except.error "Status must be one of: Not Credited, Credited."

/-- The function `validateFeeStatus` (lines 2436-2443). -/
def validateFeeStatus (status : JVal) : Except String String :=
  if !status.truthy then Except.ok "Pending"
  else
    match status with
    | JVal.str t =>
      if t = "Pending" ∨ t = "Paid" ∨ t = "Overdue" then Except.ok t
      else Except.error "Status must be one of: Pending, Paid, Overdue."
    | _ => Except.error "Status must be one of: Pending, Paid, Overdue."

/-- The validated fields of a fee. -/
structure FeeInput where
  amount : Int
  submitted : Int
  fine : Int
  status : String
deriving DecidableEq, Repr

/-- The validation at the head of the `try` block of the fee handlers (lines
2540-2548 and 2629-2637). -/
def validateFee (amount submitted fine status : JVal) : Except String FeeInput :=
  match validateNumericField amount "Amount" with
  | Except.error e => Except.error e
  | Except.ok validatedAmount =>
    match validateNumericField submitted "Submitted" with
    | Except.error e => Except.error e
    | Except.ok validatedSubmitted =>
      match validateNumericField fine "Fine" with
      | Except.error e => Except.error e
      | Except.ok validatedFine =>
        match validateFeeStatus status with
        | Except.error e => Except.error e
        | Except.ok validatedStatus =>
          if validatedSubmitted > validatedAmount then
            Except.error "Submitted amount cannot exceed the total amount."
          else
            Except.ok
              { amount := validatedAmount, submitted := validatedSubmitted,
                fine := validatedFine, status := validatedStatus }

/-- The validated fields of a salary. -/
structure SalaryInput where
  amount : Int
  tax : Int
  pf : Int
  bonus : Int
  status : String
deriving DecidableEq, Repr

/-- The validation at the head of the `try` block of the salary handlers
(lines 2785-2789 and 2882-2886). -/
def validateSalary (amount tax pf bonus status : JVal) : Except String SalaryInput :=
  match validateNumericField amount "Amount" with
  | Except.error e => Except.error e
  | Except.ok validatedAmount =>
    match validateNumericField tax "Tax" with
    | Except.error e => Except.error e
    | Except.ok validatedTax =>
      match validateNumericField pf "PF" with
      | Except.error e => Except.error e
      | Except.ok validatedPf =>
        match validateNumericField bonus "Bonus" with
        | Except.error e => Except.error e
        | Except.ok validatedBonus =>
          match validateSalaryStatus status with
          | Except.error e => Except.error e
          | Except.ok validatedStatus =>
            Except.ok
              { amount := validatedAmount, tax := validatedTax, pf := validatedPf,
                bonus := validatedBonus, status := validatedStatus }

/-! ## Fees: the handlers under `/api/accounts/fees` -/

/-- The columns `Id, StudentId, Amount, Submitted, Balance, Fine, DueDate,
Status, CreatedAt` of a fee row. -/
def accountsFeeObj (r : FeeRow) : Obj :=
  [("Id", JVal.num r.Id), ("StudentId", ofSqlInt r.StudentId), ("Amount", ofSqlInt r.Amount),
   ("Submitted", ofSqlInt r.Submitted), ("Balance", ofSqlInt r.Balance),
   ("Fine", ofSqlInt r.Fine), ("DueDate", ofSqlInt r.DueDate), ("Status", ofSqlStr r.Status),
   ("CreatedAt", ofSqlInt r.CreatedAt)]

/-- The students the query of lines 2562-2569 returns: the student `key` joined
with its class, restricted to the caller's school for role School (one entry
per student; only emptiness is used). -/
def accountsStudentCheck (db : DB) (user : ReqUser) (key : Option Int) : List StudentRow :=
  db.Students.filter (fun s =>
    sqlEq (some s.Id) key &&
    db.Classes.any (fun c =>
      sqlEq s.ClassId (some c.Id) &&
      (decide (user.role ≠ some "School") || sqlEq c.SchoolId user.schoolId)))

/-- The transaction of `POST /api/accounts/fees` (lines 2553-2594); a thrown
error rolls back and is answered by the outer `catch`. -/
def postAccountsFeesTx (now : Int) (db : DB) (user : ReqUser) (parsedStudentId : Int)
    (dueDate : JVal) (v : FeeInput) : Outcome :=
  match sqlInt (JVal.num parsedStudentId) with
  | none => reply db 500 "Value must be between -2147483648 and 2147483647, inclusive."
  | some key =>
    if (accountsStudentCheck db user key).length = 0 then
      reply db 500 "Student not found or not in your school."
    else
      match sqlDate dueDate with
      | none => reply db 500 "Invalid date."
      | some due =>
        let row : FeeRow :=
          { Id := freshId (db.Fees.map (fun r => r.Id))
            StudentId := key
            Amount := some v.amount
            Submitted := some v.submitted
            Fine := some v.fine
            DueDate := due
            Status := some v.status
            CreatedAt := some now }
        { status := 201
          body := Body.row (accountsFeeObj row)
          db := { db with Fees := db.Fees ++ [row] } }

/-- The handler `POST /api/accounts/fees` (lines 2514-2599); `now` is
`GETDATE()`. -/
def postAccountsFees (now : Int) (db : DB) (user : ReqUser) (body : Obj) : Outcome :=
  let studentId := body.get "studentId"
  let amount := body.get "amount"
  let submitted := body.get "submitted"
  let fine := body.get "fine"
  let dueDate := body.get "dueDate"
  let status := body.get "status"
  if user.role ≠ some "Admin" ∧ user.role ≠ some "School" then
    reply db 403 "Access denied."
  else if !studentId.truthy || decide (amount = JVal.undefined) || !dueDate.truthy then
    reply db 400 "Student ID, amount, and due date are required."
  else
    match parseInt studentId with
    | none => reply db 400 "Invalid student ID."
    | some parsedStudentId =>
      if !dateRegexTest dueDate then
        reply db 400 "Invalid due date format. Use YYYY-MM-DD."
      else
        match validateFee amount submitted fine status with
        | Except.error e => reply db 500 e
        | Except.ok v => postAccountsFeesTx now db user parsedStudentId dueDate v

/-- The fees the query of lines 2651-2659 returns: the fee `key` joined with
its student and class, restricted to the caller's school for role School (one
entry per fee; only emptiness is used). -/
def accountsFeeCheck (db : DB) (user : ReqUser) (key : Option Int) : List FeeRow :=
  db.Fees.filter (fun f =>
    sqlEq (some f.Id) key &&
    db.Students.any (fun s =>
      sqlEq f.StudentId (some s.Id) &&
      db.Classes.any (fun c =>
        sqlEq s.ClassId (some c.Id) &&
        (decide (user.role ≠ some "School") || sqlEq c.SchoolId user.schoolId))))

/-- The transaction of `PUT /api/accounts/fees/:id` (lines 2642-2685). -/
def putAccountsFeesTx (db : DB) (user : ReqUser) (parsedId : Int) (dueDate : JVal)
    (v : FeeInput) : Outcome :=
  match sqlInt (JVal.num parsedId) with
  | none => reply db 500 "Value must be between -2147483648 and 2147483647, inclusive."
  | some key =>
    if (accountsFeeCheck db user key).length = 0 then
      reply db 500 "Fee not found or not in your school."
    else
      match sqlDate dueDate with
      | none => reply db 500 "Invalid date."
      | some due =>
        let db1 : DB := { db with
          Fees := db.Fees.map (fun r =>
            if sqlEq (some r.Id) key then
              { r with
                Amount := some v.amount
                Submitted := some v.submitted
                Fine := some v.fine
                DueDate := due
                Status := some v.status }
            else r) }
        match db1.Fees.filter (fun r => sqlEq (some r.Id) key) with
        | [] => { status := 200, body := Body.empty, db := db1 }
        | r :: _ => { status := 200, body := Body.row (accountsFeeObj r), db := db1 }

/-- The handler `PUT /api/accounts/fees/:id` (lines 2602-2690). -/
def putAccountsFees (db : DB) (user : ReqUser) (id : Int) (body : Obj) : Outcome :=
  let amount := body.get "amount"
  let submitted := body.get "submitted"
  let fine := body.get "fine"
  let dueDate := body.get "dueDate"
  let status := body.get "status"
  if user.role ≠ some "Admin" ∧ user.role ≠ some "School" then
    reply db 403 "Access denied."
  else
    match parseInt (JVal.num id) with
    | none => reply db 400 "Invalid fee ID."
    | some parsedId =>
      if decide (amount = JVal.undefined) || !dueDate.truthy then
        reply db 400 "Amount and due date are required."
      else if !dateRegexTest dueDate then
        reply db 400 "Invalid due date format. Use YYYY-MM-DD."
      else
        match validateFee amount submitted fine status with
        | Except.error e => reply db 500 e
        | Except.ok v => putAccountsFeesTx db user parsedId dueDate v

/-! ## Salaries: the handlers under `/api/accounts/salaries` -/

/-- The columns `Id, TeacherId, StaffId, Amount, Month, Status, Tax, PF, Bonus,
CreatedAt` of a salary row. -/
def salaryObj (r : SalaryRow) : Obj :=
  [("Id", JVal.num r.Id), ("TeacherId", ofSqlInt r.TeacherId), ("StaffId", ofSqlInt r.StaffId),
   ("Amount", ofSqlInt r.Amount), ("Month", ofSqlInt r.Month), ("Status", ofSqlStr r.Status),
   ("Tax", ofSqlInt r.Tax), ("PF", ofSqlInt r.PF), ("Bonus", ofSqlInt r.Bonus),
   ("CreatedAt", ofSqlInt r.CreatedAt)]

/-- The ids the employee query of lines 2797-2820 returns; `none` is the
driver's error on a parameter that is `NaN` or out of range. -/
def employeeCheck (db : DB) (user : ReqUser) (parsedTeacherId parsedStaffId : NumOrNull) :
    Option (List Int) :=
  if numTruthy parsedTeacherId then
    match sqlIntNum parsedTeacherId with
    | none => none
    | some key =>
      some ((db.Teachers.filter (fun t =>
        sqlEq (some t.Id) key &&
        (decide (user.role ≠ some "School") || sqlEq t.SchoolId user.schoolId))).map
          (fun t => t.Id))
  else
    match sqlIntNum parsedStaffId with
    | none => none
    | some key =>
      some ((db.Staff.filter (fun t =>
        sqlEq (some t.Id) key &&
        (decide (user.role ≠ some "School") || sqlEq t.SchoolId user.schoolId))).map
          (fun t => t.Id))

/-- The transaction of `POST /api/accounts/salaries` (lines 2794-2847). -/
def postAccountsSalariesTx (now : Int) (db : DB) (user : ReqUser)
    (parsedTeacherId parsedStaffId : NumOrNull) (month : JVal) (v : SalaryInput) : Outcome :=
  match employeeCheck db user parsedTeacherId parsedStaffId with
  | none => reply db 500 "Invalid number."
  | some [] => reply db 500 "Teacher or Staff not found or not in your school."
  | some (_ :: _) =>
    match sqlIntNum (numOrNull parsedTeacherId), sqlIntNum (numOrNull parsedStaffId),
        sqlDate month with
    | some t, some st, some m =>
      let row : SalaryRow :=
        { Id := freshId (db.Salaries.map (fun r => r.Id))
          TeacherId := t
          StaffId := st
          Amount := some v.amount
          Month := m
          Status := some v.status
          Tax := some v.tax
          PF := some v.pf
          Bonus := some v.bonus
          CreatedAt := some now }
      { status := 201
        body := Body.row (salaryObj row)
        db := { db with Salaries := db.Salaries ++ [row] } }
    | _, _, _ => reply db 500 "Invalid date."

/-- The handler `POST /api/accounts/salaries` (lines 2751-2852); `now` is
`GETDATE()`. -/
def postAccountsSalaries (now : Int) (db : DB) (user : ReqUser) (body : Obj) : Outcome :=
  let teacherId := body.get "teacherId"
  let staffId := body.get "staffId"
  let amount := body.get "amount"
  let month := body.get "month"
  let status := body.get "status"
  let tax := body.get "tax"
  let pf := body.get "pf"
  let bonus := body.get "bonus"
  if user.role ≠ some "Admin" ∧ user.role ≠ some "School" then
    reply db 403 "Access denied."
  else if (!teacherId.truthy && !staffId.truthy) || decide (amount = JVal.undefined) ||
      !month.truthy then
    reply db 400 "Teacher ID or Staff ID, amount, and month are required."
  else if teacherId.truthy && staffId.truthy then
    reply db 400 "Provide either Teacher ID or Staff ID, not both."
  else
    let parsedTeacherId := parseIntOrNull teacherId
    let parsedStaffId := parseIntOrNull staffId
    if numTruthy parsedTeacherId && numIsNaN parsedTeacherId then
      reply db 400 "Invalid teacher ID."
    else if numTruthy parsedStaffId && numIsNaN parsedStaffId then
      reply db 400 "Invalid staff ID."
    else if !dateRegexTest month then
      reply db 400 "Invalid month format. Use YYYY-MM-DD."
    else
      match validateSalary amount tax pf bonus status with
      | Except.error e => reply db 500 e
      | Except.ok v => postAccountsSalariesTx now db user parsedTeacherId parsedStaffId month v

/-- The salaries the query of lines 2900-2908 returns: the salary `key` left
joined with its teacher and staff member, restricted to the caller's school for
role School (one entry per salary; only emptiness is used). -/
def accountsSalaryCheck (db : DB) (user : ReqUser) (key : Option Int) : List SalaryRow :=
  db.Salaries.filter (fun r =>
    sqlEq (some r.Id) key &&
    (decide (user.role ≠ some "School") ||
      db.Teachers.any (fun t => sqlEq r.TeacherId (some t.Id) && sqlEq t.SchoolId user.schoolId) ||
      db.Staff.any (fun t => sqlEq r.StaffId (some t.Id) && sqlEq t.SchoolId user.schoolId)))

/-- The transaction of `PUT /api/accounts/salaries/:id` (lines 2891-2935). -/
def putAccountsSalariesTx (db : DB) (user : ReqUser) (parsedId : Int) (month : JVal)
    (v : SalaryInput) : Outcome :=
  match sqlInt (JVal.num parsedId) with
  | none => reply db 500 "Value must be between -2147483648 and 2147483647, inclusive."
  | some key =>
    if (accountsSalaryCheck db user key).length = 0 then
      reply db 500 "Salary not found or not in your school."
    else
      match sqlDate month with
      | none => reply db 500 "Invalid date."
      | some m =>
        let db1 : DB := { db with
          Salaries := db.Salaries.map (fun r =>
            if sqlEq (some r.Id) key then
              { r with
                Amount := some v.amount
                Month := m
                Status := some v.status
                Tax := some v.tax
                PF := some v.pf
                Bonus := some v.bonus }
            else r) }
        match db1.Salaries.filter (fun r => sqlEq (some r.Id) key) with
        | [] => { status := 200, body := Body.empty, db := db1 }
        | r :: _ => { status := 200, body := Body.row (salaryObj r), db := db1 }

/-- The handler `PUT /api/accounts/salaries/:id` (lines 2855-2940). -/
def putAccountsSalaries (db : DB) (user : ReqUser) (id : Int) (body : Obj) : Outcome :=
  let amount := body.get "amount"
  let month := body.get "month"
  let status := body.get "status"
  let tax := body.get "tax"
  let pf := body.get "pf"
  let bonus := body.get "bonus"
  if user.role ≠ some "Admin" ∧ user.role ≠ some "School" then
    reply db 403 "Access denied."
  else
    match parseInt (JVal.num id) with
    | none => reply db 400 "Invalid salary ID."
    | some parsedId =>
      if decide (amount = JVal.undefined) || !month.truthy then
        reply db 400 "Amount and month are required."
      else if !dateRegexTest month then
        reply db 400 "Invalid month format. Use YYYY-MM-DD."
      else
        match validateSalary amount tax pf bonus status with
        | Except.error e => reply db 500 e
        | Except.ok v => putAccountsSalariesTx db user parsedId month v

/-! ## More sample states -/

/-- The sample state with a staff member, subjects, salaries and dangling
links: student 102 and subject 2 name class 30, which has no row; fee 6 belongs
to student 102. -/
def accountsDB : DB :=
  { sampleDB with
    Students := sampleDB.Students ++ [{ Id := 102, Name := some "Cy", ClassId := some 30 }]
    Fees := sampleDB.Fees ++
      [{ Id := 6, StudentId := some 102, Amount := some 300, Submitted := some 100 }]
    Staff := [{ Id := 3, Name := some "Sam", SchoolId := some 1 }]
    Subjects :=
      [{ Id := 1, Name := some "Maths", ClassId := some 10, TeacherId := some 7 },
       { Id := 2, Name := some "Art", ClassId := some 30 }]
    Salaries :=
      [{ Id := 1, TeacherId := some 7, Amount := some 1000, Month := some 20250601,
         Status := some "Credited" }] }

/-- The invariant of a salary row: exactly one of `TeacherId` and `StaffId` is
set. -/
def salaryKeyOk (r : SalaryRow) : Bool :=
  (r.TeacherId.isSome && r.StaffId.isNone) || (r.TeacherId.isNone && r.StaffId.isSome)

/-- The invariant of a fee row: `0 ≤ Submitted ≤ Amount`. -/
def feeAmountsOk (r : FeeRow) : Bool :=
  match r.Submitted, r.Amount with
  | some sb, some a => decide (0 ≤ sb ∧ sb ≤ a)
  | _, _ => false

/-- The call `bcrypt.compare(s, hash)`: the library rejects an argument that is
not a string (`none`); `compare` is its verdict on two strings. -/
def bcryptCompare (compare : String → String → Bool) (s hash : JVal) : Option Bool :=
  match s, hash with
  | JVal.str p, JVal.str h => some (compare p h)
  | _, _ => none

/-- The handler `POST /api/users/reset-password` (lines 4182-4208).  It reads
the properties `Password` and `Id` of `req.user`. -/
def resetPassword (compare : String → String → Bool) (hash : String → String) (db : DB)
    (user : ReqUser) (body : Obj) : Outcome :=
  let currentPassword := body.get "currentPassword"
  let newPassword := body.get "newPassword"
  match bcryptCompare compare currentPassword (user.get "Password") with
  | none => reply db 500 "Server error while resetting password"
  | some false => reply db 400 "Current password is incorrect"
  | some true =>
    match newPassword, sqlInt (user.get "Id") with
    | JVal.str p, some key =>
      { status := 200
        body := Body.message "Password updated successfully"
        db := { db with
          Users := db.Users.map (fun r =>
            if sqlEq (some r.Id) key then { r with Password := some (hash p) } else r) } }
    | _, _ => reply db 500 "Server error while resetting password"

/-- The handler `POST /api/holidays` (lines 2225-2276); `now` is `GETDATE()`. -/
def postHolidays (now : Int) (db : DB) (user : ReqUser) (body : Obj) : Outcome :=
  let name := body.get "name"
  let startDate := body.get "startDate"
  let endDate := body.get "endDate"
  let description := body.get "description"
  let schoolId := body.get "schoolId"
  if !name.truthy || !startDate.truthy || !endDate.truthy || !description.truthy ||
      !schoolId.truthy then
    reply db 400 "Name, start date, end date, description, and schoolId are required"
  else if !dateRegexTest startDate || !dateRegexTest endDate then
    reply db 400 "Invalid date format. Use YYYY-MM-DD"
  else if dateLt (newDate endDate) (newDate startDate) then
    reply db 400 "End date cannot be before start date"
  else
    match parseInt schoolId with
    | none => reply db 400 "Invalid schoolId"
    | some parsedSchoolId =>
      if user.role ≠ some "Admin" ∧
          (user.role ≠ some "School" ∨ user.schoolId ≠ some parsedSchoolId) then
        reply db 403 "Access denied"
      else
        match sqlDate startDate, sqlDate endDate, sqlInt (JVal.num parsedSchoolId) with
        | some d1, some d2, some sid =>
          let row : HolidayRow :=
            { Id := freshId (db.Holidays.map (fun r => r.Id))
              Name := sqlNVarChar name
              StartDate := d1
              EndDate := d2
              Description := sqlNVarChar description
              SchoolId := sid
              CreatedAt := some now }
          { status := 201
            body := Body.row (holidayObj row)
            db := { db with Holidays := db.Holidays ++ [row] } }
        | _, _, _ => reply db 500 "Error adding holiday"

/-- The handler `POST /api/subjects` registered first (lines 1867-1890). -/
def postSubjects (db : DB) (user : ReqUser) (body : Obj) : Outcome :=
  let name := body.get "name"
  let classId := body.get "classId"
  match sqlInt classId with
  | none => reply db 500 "Error adding subject"
  | some key =>
    match selectClass db key with
    | none => reply db 404 "Class not found"
    | some classData =>
      if user.role ≠ some "Admin" ∧ classData.SchoolId ≠ user.schoolId then
        reply db 403 "Access denied"
      else
        { status := 201
          body := Body.message "Subject added successfully"
          db := { db with
            Subjects := db.Subjects ++
              [{ Id := freshId (db.Subjects.map (fun r => r.Id))
                 Name := sqlNVarChar name
                 ClassId := key }] } }

/-- The handler `PUT /api/subjects/:id` registered first (lines 1892-1917). -/
def putSubjects (db : DB) (user : ReqUser) (id : Int) (body : Obj) : Outcome :=
  let name := body.get "name"
  let classId := body.get "classId"
  match sqlInt classId with
  | none => reply db 500 "Error updating subject"
  | some key =>
    match selectClass db key with
    | none => reply db 404 "Class not found"
    | some classData =>
      if user.role ≠ some "Admin" ∧ classData.SchoolId ≠ user.schoolId then
        reply db 403 "Access denied"
      else
        { status := 200
          body := Body.message "Subject updated successfully"
          db := { db with
            Subjects := db.Subjects.map (fun r =>
              if r.Id = id then { r with Name := sqlNVarChar name, ClassId := key } else r) } }

/-- Every column of a subject row (`INSERTED.*`). -/
def subjectObj (r : SubjectRow) : Obj :=
  [("Id", JVal.num r.Id), ("Name", ofSqlStr r.Name), ("ClassId", ofSqlInt r.ClassId),
   ("TeacherId", ofSqlInt r.TeacherId), ("PeriodsPerWeek", ofSqlInt r.PeriodsPerWeek),
   ("CreatedAt", ofSqlInt r.CreatedAt)]

/-- The handler `POST /api/subjects` registered second (lines 3280-3347). -/
def postSubjects2 (now : Int) (db : DB) (user : ReqUser) (body : Obj) : Outcome :=
  let classId := body.get "classId"
  let name := body.get "name"
  let teacherId := body.get "teacherId"
  let periodsPerWeek := body.get "periodsPerWeek"
  if !classId.truthy || !name.truthy || !teacherId.truthy || !periodsPerWeek.truthy then
    reply db 400 "Class ID, Name, Teacher ID, and Periods Per Week are required"
  else
    match sqlInt classId with
    | none => reply db 500 "Error creating subject"
    | some key =>
      match selectClass db key with
      | none => reply db 404 "Class not found"
      | some classData =>
        if user.role = some "School" ∧ classData.SchoolId ≠ user.schoolId then
          reply db 403 "Access denied: Class does not belong to your school"
        else if user.role ≠ some "Admin" ∧ user.role ≠ some "School" then
          reply db 403 "Access denied: Insufficient permissions"
        else
          match sqlInt teacherId with
          | none => reply db 500 "Error creating subject"
          | some tkey =>
            if (db.Teachers.filter (fun t =>
                sqlEq (some t.Id) tkey && sqlEq t.SchoolId classData.SchoolId)).length = 0 then
              reply db 404
                "Teacher not found or does not belong to the same school as the class"
            else
              match sqlInt periodsPerWeek with
              | none => reply db 500 "Error creating subject"
              | some periods =>
                let row : SubjectRow :=
                  { Id := freshId (db.Subjects.map (fun r => r.Id))
                    Name := sqlNVarChar name
                    ClassId := key
                    TeacherId := tkey
                    PeriodsPerWeek := periods
                    CreatedAt := some now }
                { status := 201
                  body := Body.row (subjectObj row)
                  db := { db with Subjects := db.Subjects ++ [row] } }

/-- The handler `PUT /api/subjects/:id` registered second (lines 3396-3484). -/
def putSubjects2 (db : DB) (user : ReqUser) (id : Int) (body : Obj) : Outcome :=
  let classId := body.get "classId"
  let name := body.get "name"
  let teacherId := body.get "teacherId"
  let periodsPerWeek := body.get "periodsPerWeek"
  if !classId.truthy || !name.truthy || !teacherId.truthy || !periodsPerWeek.truthy then
    reply db 400 "Class ID, Name, Teacher ID, and Periods Per Week are required"
  else if (db.Subjects.filter (fun r => r.Id == id)).length = 0 then
    reply db 404 "Subject not found"
  else
    match sqlInt classId with
    | none => reply db 500 "Error updating subject"
    | some key =>
      match selectClass db key with
      | none => reply db 404 "Class not found"
      | some classData =>
        if user.role = some "School" ∧ classData.SchoolId ≠ user.schoolId then
          reply db 403 "Access denied: Class does not belong to your school"
        else if user.role ≠ some "Admin" ∧ user.role ≠ some "School" then
          reply db 403 "Access denied: Insufficient permissions"
        else
          match sqlInt teacherId with
          | none => reply db 500 "Error updating subject"
          | some tkey =>
            if (db.Teachers.filter (fun t =>
                sqlEq (some t.Id) tkey && sqlEq t.SchoolId classData.SchoolId)).length = 0 then
              reply db 404
                "Teacher not found or does not belong to the same school as the class"
            else
              match sqlInt periodsPerWeek with
              | none => reply db 500 "Error updating subject"
              | some periods =>
                let db1 : DB := { db with
                  Subjects := db.Subjects.map (fun r =>
                    if r.Id = id then
                      { r with
                        ClassId := key
                        Name := sqlNVarChar name
                        TeacherId := tkey
                        PeriodsPerWeek := periods }
                    else r) }
                match db1.Subjects.filter (fun r => r.Id == id) with
                | [] => reply db1 404 "Subject not found"
                | r :: _ => { status := 200, body := Body.row (subjectObj r), db := db1 }

/-- The sample state with stored password hashes (those of `sampleHash`) and
roll numbers. -/
def loginDB : DB :=
  { accountsDB with
    Users :=
      [{ Id := 1, Username := some "root", Password := some "#r00t", Role := some "Admin" },
       { Id := 2, Username := some "oak", Password := some "#acorn", Role := some "School",
         SchoolId := some 1 },
       { Id := 7, Username := some "tia", Password := some "#chalk", Role := some "Teacher",
         SchoolId := some 1 }]
    Students :=
      [{ Id := 100, Name := some "Ana", RollNo := some "1", ClassId := some 10 },
       { Id := 101, Name := some "Ben", RollNo := some "2", ClassId := some 10 }] }

/-- The verdict of the password library for `sampleHash`. -/
def sampleCompare (p h : String) : Bool :=
  h == sampleHash p

theorem reqUser_get_Role (u : ReqUser) : u.get "Role" = JVal.undefined := by
  simp [ReqUser.get]

theorem reqUser_get_id (u : ReqUser) : u.get "id" = JVal.undefined := by
  simp [ReqUser.get]

theorem orderByDateDesc_perm (rows : List AttendanceRow) :
    (orderByDateDesc rows).Perm rows :=
  List.perm_insertionSort _ rows

/-! ## Tenant isolation on class writes -/

/-- C1: for every storage state and every principal with role School, (a)
`POST /api/classes` with a body `schoolId` that differs from the principal's
school answers 403 and leaves storage as it is, and (b) `DELETE /api/classes/:id`
on an existing class of another school answers 403, leaves storage as it is and
the class row is still there. -/
theorem class_writes_tenant_isolated (db : DB) (user : ReqUser)
    (hrole : user.role = some "School") :
    (∀ body : Obj, body.get "schoolId" ≠ ofSqlInt user.schoolId →
      (postClasses db user body).status = 403 ∧ (postClasses db user body).db = db) ∧
    (∀ (id : Int) (classData : ClassRow), selectClass db (some id) = some classData →
      classData.SchoolId ≠ user.schoolId →
      (deleteClasses db user id).status = 403 ∧ (deleteClasses db user id).db = db ∧
      selectClass (deleteClasses db user id).db (some id) = some classData) := by
  refine ⟨?_, ?_⟩
  · intro body hne
    have hne2 : ¬ ofSqlInt user.schoolId = body.get "schoolId" := fun h => hne h.symm
    simp [postClasses, hrole, hne2, reply]
  · intro id classData hsel hne
    simp [deleteClasses, hsel, hrole, hne, reply]

/-- Witness of C1: the School principal of school 1 on the sample state, with a
body for school 2 and with class 20 of school 2. -/
theorem class_writes_tenant_isolated_witness :
    ((postClasses sampleDB { userId := 2, role := some "School", schoolId := some 1 }
        [("name", JVal.str "7C"), ("schoolId", JVal.num 2)]).status = 403 ∧
      (postClasses sampleDB { userId := 2, role := some "School", schoolId := some 1 }
        [("name", JVal.str "7C"), ("schoolId", JVal.num 2)]).db = sampleDB) ∧
    ((deleteClasses sampleDB { userId := 2, role := some "School", schoolId := some 1 } 20).status
        = 403 ∧
      (deleteClasses sampleDB { userId := 2, role := some "School", schoolId := some 1 } 20).db
        = sampleDB ∧
      selectClass
        (deleteClasses sampleDB { userId := 2, role := some "School", schoolId := some 1 } 20).db
        (some 20) = some { Id := 20, Name := some "6B", SchoolId := some 2 }) :=
  ⟨(class_writes_tenant_isolated sampleDB
      { userId := 2, role := some "School", schoolId := some 1 } rfl).1
      [("name", JVal.str "7C"), ("schoolId", JVal.num 2)] (by decide),
   (class_writes_tenant_isolated sampleDB
      { userId := 2, role := some "School", schoolId := some 1 } rfl).2
      20 { Id := 20, Name := some "6B", SchoolId := some 2 } (by decide) (by decide)⟩

/-! ## Attendance creation across schools -/

/-- C2, evaluated: on the sample state the School principal of school 2 marks
attendance for teacher 7 of school 1, and the Teacher principal of school 2
marks attendance for student 100 of school 1; both requests answer 201 and
insert an Attendance row. -/
theorem postAttendance_cross_school_inserts :
    selectTeacher sampleDB (some 7) = some { Id := 7, Name := some "Tia", SchoolId := some 1 } ∧
    (postAttendance sampleDB { userId := 3, role := some "School", schoolId := some 2 }
      [("teacherId", JVal.num 7), ("date", JVal.str "2025-06-03"),
       ("status", JVal.str "Present")]).status = 201 ∧
    (postAttendance sampleDB { userId := 3, role := some "School", schoolId := some 2 }
      [("teacherId", JVal.num 7), ("date", JVal.str "2025-06-03"),
       ("status", JVal.str "Present")]).db.Attendance =
      sampleDB.Attendance ++
        [{ Id := 5, TeacherId := some 7, Date := some 20250603, Status := some "Present" }] ∧
    (selectStudent sampleDB (some 100)).map (fun r => r.ClassId) = some (some 10) ∧
    (selectClass sampleDB (some 10)).map (fun r => r.SchoolId) = some (some 1) ∧
    (postAttendance sampleDB { userId := 9, role := some "Teacher", schoolId := some 2 }
      [("studentId", JVal.num 100), ("date", JVal.str "2025-06-03"),
       ("status", JVal.str "Present")]).status = 201 ∧
    (postAttendance sampleDB { userId := 9, role := some "Teacher", schoolId := some 2 }
      [("studentId", JVal.num 100), ("date", JVal.str "2025-06-03"),
       ("status", JVal.str "Present")]).db.Attendance =
      sampleDB.Attendance ++
        [{ Id := 5, StudentId := some 100, Date := some 20250603, Status := some "Present" }] := by
  decide

/-- The teacher branch never denies a School principal, whatever the teacher's
school. -/
theorem postAttendanceTeacher_school_not_denied (db : DB) (user : ReqUser)
    (teacherId date status : JVal) (hrole : user.role = some "School") :
    (postAttendanceTeacher db user teacherId date status).status ≠ 403 := by
  unfold postAttendanceTeacher
  simp only [hrole]
  split
  · simp [reply]
  · split
    · simp [reply]
    · simp only [ne_eq, not_true_eq_false, false_and, and_false, if_false]
      split
      · simp [reply]
      · split <;> simp [reply]

/-! ## Fee update across schools -/

/-- C3, evaluated: on the sample state fee 5 belongs to student 100 of class 10
of school 1; the School principal of school 2 calls `PUT /api/fees/5` with
`amountPaid = 50`, the answer is 200 and the row is changed. -/
theorem putFees_cross_school_updates :
    (sampleDB.Fees.find? (fun r => r.Id == 5)).map (fun r => r.StudentId) = some (some 100) ∧
    (selectStudent sampleDB (some 100)).map (fun r => r.ClassId) = some (some 10) ∧
    (selectClass sampleDB (some 10)).map (fun r => r.SchoolId) = some (some 1) ∧
    (putFees sampleDB { userId := 3, role := some "School", schoolId := some 2 } 5
      [("amountPaid", JVal.num 50)]).status = 200 ∧
    (putFees sampleDB { userId := 3, role := some "School", schoolId := some 2 } 5
      [("amountPaid", JVal.num 50)]).db.Fees =
      [{ Id := 5, StudentId := some 100, Amount := some 500, Submitted := some 0,
         AmountPaid := some 50, TotalFee := some 500 }] ∧
    (putFees sampleDB { userId := 3, role := some "School", schoolId := some 2 } 5
      [("amountPaid", JVal.num 50)]).db ≠ sampleDB := by
  decide

/-- The handler `PUT /api/fees/:id` has no 403 answer: for every state,
principal, id and body. -/
theorem putFees_never_403 (db : DB) (user : ReqUser) (id : Int) (body : Obj) :
    (putFees db user id body).status ≠ 403 := by
  unfold putFees
  simp only
  split
  · simp [reply]
  · split
    · simp [reply]
    · split <;> simp [reply]

/-! ## User accounts across schools -/

/-- C4, evaluated: on the sample state user 7 has `SchoolId = 1`; the School
principal of school 2 updates it through `PUT /api/users/7` (answer 200, the row
is rewritten and moved to school 2) and deletes it through
`DELETE /api/users/7` (answer 200, the row is gone). -/
theorem users_cross_school_written :
    (selectUser sampleDB (some 7)).map (fun r => r.SchoolId) = some (some 1) ∧
    (putUsers sampleHash sampleDB { userId := 3, role := some "School", schoolId := some 2 } 7
      [("username", JVal.str "x"), ("role", JVal.str "Teacher"), ("email", JVal.str "x@y.z"),
       ("schoolId", JVal.num 2)]).status = 200 ∧
    selectUser
      (putUsers sampleHash sampleDB { userId := 3, role := some "School", schoolId := some 2 } 7
        [("username", JVal.str "x"), ("role", JVal.str "Teacher"), ("email", JVal.str "x@y.z"),
         ("schoolId", JVal.num 2)]).db (some 7) =
      some { Id := 7, Username := some "x", Role := some "Teacher", Email := some "x@y.z",
             SchoolId := some 2 } ∧
    (deleteUsers sampleDB { userId := 3, role := some "School", schoolId := some 2 } 7).status
      = 200 ∧
    selectUser
      (deleteUsers sampleDB { userId := 3, role := some "School", schoolId := some 2 } 7).db
      (some 7) = none := by
  decide

/-! ## School updates that change the school of a row -/

/-- C5, evaluated: on the sample state event 1, holiday 1 and notice 1 belong to
school 1; the School principal of school 1 sends `schoolId = 2` in the body of
`PUT /api/events/1`, `PUT /api/holidays/1` and `PUT /api/notices/1`; each
answers 200 and the row's `SchoolId` is 2 afterwards. -/
theorem school_update_moves_row :
    (putEvents sampleDB { userId := 2, role := some "School", schoolId := some 1 } 1
      [("title", JVal.str "Fair"), ("date", JVal.str "2025-05-10"),
       ("description", JVal.str "d"), ("schoolId", JVal.num 2)]).status = 200 ∧
    (putEvents sampleDB { userId := 2, role := some "School", schoolId := some 1 } 1
      [("title", JVal.str "Fair"), ("date", JVal.str "2025-05-10"),
       ("description", JVal.str "d"), ("schoolId", JVal.num 2)]).db.Events =
      [{ Id := 1, Title := some "Fair", Date := some 20250510, Description := some "d",
         SchoolId := some 2 }] ∧
    (putHolidays sampleDB { userId := 2, role := some "School", schoolId := some 1 } 1
      [("name", JVal.str "Break"), ("startDate", JVal.str "2025-06-01"),
       ("endDate", JVal.str "2025-06-10"), ("description", JVal.str "d"),
       ("schoolId", JVal.num 2)]).status = 200 ∧
    (putHolidays sampleDB { userId := 2, role := some "School", schoolId := some 1 } 1
      [("name", JVal.str "Break"), ("startDate", JVal.str "2025-06-01"),
       ("endDate", JVal.str "2025-06-10"), ("description", JVal.str "d"),
       ("schoolId", JVal.num 2)]).db.Holidays =
      [{ Id := 1, Name := some "Break", StartDate := some 20250601, EndDate := some 20250610,
         Description := some "d", SchoolId := some 2 }] ∧
    (putNotices sampleDB { userId := 2, role := some "School", schoolId := some 1 } 1
      [("title", JVal.str "Exam"), ("description", JVal.str "d"),
       ("date", JVal.str "2025-05-10"), ("schoolId", JVal.num 2)]).status = 200 ∧
    (putNotices sampleDB { userId := 2, role := some "School", schoolId := some 1 } 1
      [("title", JVal.str "Exam"), ("description", JVal.str "d"),
       ("date", JVal.str "2025-05-10"), ("schoolId", JVal.num 2)]).db.Notices =
      [{ Id := 1, Title := some "Exam", Description := some "d", Date := some 20250510,
         SchoolId := some 2 }] := by
  decide

/-! ## Admin and the change-password route -/

/-- C6, evaluated: on the sample state the token of user 1 resolves to the
principal with role Admin, and `PUT /api/users/7/change-password` with a new
password answers 403 for it and leaves storage as it is. -/
theorem changePassword_admin_denied :
    authenticateToken sampleVerify sampleDB (some "Bearer t1") =
      AuthResult.next { userId := 1, role := some "Admin", schoolId := none } ∧
    (selectUser sampleDB (some 7)).isSome = true ∧
    (route sampleVerify sampleDB (some "Bearer t1") (fun user =>
      changePassword sampleHash sampleDB user 7 [("newPassword", JVal.str "pw")])).status
      = 403 ∧
    (route sampleVerify sampleDB (some "Bearer t1") (fun user =>
      changePassword sampleHash sampleDB user 7 [("newPassword", JVal.str "pw")])).db
      = sampleDB := by
  decide

/-- The change-password route answers 403 to every principal once the target
user exists: `req.user` has no property `Role`. -/
theorem changePassword_always_403 (hash : String → String) (db : DB) (user : ReqUser)
    (id : Int) (body : Obj) (target : UserRow) (h : selectUser db (some id) = some target) :
    (changePassword hash db user id body).status = 403 := by
  simp [changePassword, h, reqUser_get_Role, reply]

/-! ## Self-scoped attendance reads -/

/-- C7, counterexample: on the sample state student 100 (class 10, school 1)
and teacher 7 (school 1) exist; a Student principal with `userId = 100` and a
Teacher principal with `userId = 7`, both with `schoolId = 2`, read their own
attendance and are answered 403. -/
theorem own_attendance_denied_on_school_mismatch :
    (selectStudent sampleDB (some 100)).map (fun r => r.ClassId) = some (some 10) ∧
    (selectClass sampleDB (some 10)).map (fun r => r.SchoolId) = some (some 1) ∧
    (getAttendanceStudent sampleDB
      { userId := 100, role := some "Student", schoolId := some 2 } 100).status = 403 ∧
    (selectTeacher sampleDB (some 7)).map (fun r => r.SchoolId) = some (some 1) ∧
    (getAttendanceTeacher sampleDB
      { userId := 7, role := some "Teacher", schoolId := some 2 } 7).status = 403 := by
  decide

/-- C7, amended: a Student principal with `userId = U` reading
`/api/attendance/student/U` (student and class existing) and a Teacher principal
with `userId = U` reading `/api/attendance/teacher/U` (teacher existing) get 200
with exactly the Attendance rows of that student or teacher, storage untouched,
when the principal's school equals the school of the student's class or of the
teacher; when it differs the answer is 403. -/
theorem own_attendance_allowed_iff_same_school (db : DB) (user : ReqUser) :
    (∀ (student : StudentRow) (classData : ClassRow),
      user.role = some "Student" →
      selectStudent db (some user.userId) = some student →
      selectClass db student.ClassId = some classData →
      (classData.SchoolId = user.schoolId →
        (getAttendanceStudent db user user.userId).status = 200 ∧
        (getAttendanceStudent db user user.userId).db = db ∧
        ∃ rows : List AttendanceRow,
          (getAttendanceStudent db user user.userId).body =
            Body.rows (rows.map studentAttendanceObj) ∧
          rows.Perm (db.Attendance.filter (fun a => sqlEq a.StudentId (some user.userId)))) ∧
      (classData.SchoolId ≠ user.schoolId →
        (getAttendanceStudent db user user.userId).status = 403)) ∧
    (∀ teacher : TeacherRow,
      user.role = some "Teacher" →
      selectTeacher db (some user.userId) = some teacher →
      (teacher.SchoolId = user.schoolId →
        (getAttendanceTeacher db user user.userId).status = 200 ∧
        (getAttendanceTeacher db user user.userId).db = db ∧
        ∃ rows : List AttendanceRow,
          (getAttendanceTeacher db user user.userId).body =
            Body.rows (rows.map teacherAttendanceObj) ∧
          rows.Perm (db.Attendance.filter (fun a => sqlEq a.TeacherId (some user.userId)))) ∧
      (teacher.SchoolId ≠ user.schoolId →
        (getAttendanceTeacher db user user.userId).status = 403)) := by
  refine ⟨?_, ?_⟩
  · intro student classData hrole hs hc
    refine ⟨?_, ?_⟩
    · intro hsame
      refine ⟨?_, ?_, ?_⟩
      · simp [getAttendanceStudent, hs, hc, hrole, hsame, numNe, parseInt]
      · simp [getAttendanceStudent, hs, hc, hrole, hsame, numNe, parseInt]
      · refine ⟨orderByDateDesc
          (db.Attendance.filter (fun a => sqlEq a.StudentId (some user.userId))), ?_,
          orderByDateDesc_perm _⟩
        simp [getAttendanceStudent, hs, hc, hrole, hsame, numNe, parseInt]
    · intro hne
      simp [getAttendanceStudent, hs, hc, hrole, hne, numNe, parseInt, reply]
  · intro teacher hrole ht
    refine ⟨?_, ?_⟩
    · intro hsame
      refine ⟨?_, ?_, ?_⟩
      · simp [getAttendanceTeacher, ht, hrole, hsame, numNe, parseInt]
      · simp [getAttendanceTeacher, ht, hrole, hsame, numNe, parseInt]
      · refine ⟨orderByDateDesc
          (db.Attendance.filter (fun a => sqlEq a.TeacherId (some user.userId))), ?_,
          orderByDateDesc_perm _⟩
        simp [getAttendanceTeacher, ht, hrole, hsame, numNe, parseInt]
    · intro hne
      simp [getAttendanceTeacher, ht, hrole, hne, numNe, parseInt, reply]

/-- Witness of C7 amended: student 100 and teacher 7 of the sample state, each
with the school of its target. -/
theorem own_attendance_allowed_iff_same_school_witness :
    (getAttendanceStudent sampleDB
      { userId := 100, role := some "Student", schoolId := some 1 } 100).status = 200 ∧
    (getAttendanceTeacher sampleDB
      { userId := 7, role := some "Teacher", schoolId := some 1 } 7).status = 200 :=
  ⟨(((own_attendance_allowed_iff_same_school sampleDB
      { userId := 100, role := some "Student", schoolId := some 1 }).1
      { Id := 100, Name := some "Ana", ClassId := some 10 }
      { Id := 10, Name := some "5A", SchoolId := some 1 }
      rfl (by decide) (by decide)).1 rfl).1,
   (((own_attendance_allowed_iff_same_school sampleDB
      { userId := 7, role := some "Teacher", schoolId := some 1 }).2
      { Id := 7, Name := some "Tia", SchoolId := some 1 }
      rfl (by decide)).1 rfl).1⟩

/-- C9, evaluated: on the sample state the token of user 7 resolves to the
Teacher principal with `userId = 7`, the Teachers row 7 exists, and
`GET /api/teachers/7` answers 403. -/
theorem getTeacher_own_record_denied :
    authenticateToken sampleVerify sampleDB (some "Bearer t7") =
      AuthResult.next { userId := 7, role := some "Teacher", schoolId := some 1 } ∧
    selectTeacher sampleDB (some 7) = some { Id := 7, Name := some "Tia", SchoolId := some 1 } ∧
    (route sampleVerify sampleDB (some "Bearer t7") (fun user =>
      getTeacher sampleDB user 7)).status = 403 := by
  decide

/-- The route `GET /api/teachers/:teacherId` answers 403 to every Teacher
principal once the teacher exists: `req.user` has no property `id`. -/
theorem getTeacher_teacher_always_403 (db : DB) (user : ReqUser) (teacherId : Int)
    (teacher : TeacherRow) (hrole : user.role = some "Teacher")
    (h : selectTeacher db (some teacherId) = some teacher) :
    (getTeacher db user teacherId).status = 403 := by
  simp [getTeacher, h, hrole, reqUser_get_id, reply]

/-! ## Writes by a Student principal -/

/-- C10, evaluated: on the sample state the Student principal of school 1
creates a fee for student 100 of its own school through `POST /api/fees`
(answer 201, one Fees row more) and deletes user 1 through
`DELETE /api/accounts/1` (answer 204, the row is gone). -/
theorem student_principal_writes :
    (postFees sampleDB { userId := 100, role := some "Student", schoolId := some 1 }
      [("studentId", JVal.num 100), ("amount", JVal.num 10),
       ("dueDate", JVal.str "2025-06-03"), ("status", JVal.str "Pending")]).status = 201 ∧
    (postFees sampleDB { userId := 100, role := some "Student", schoolId := some 1 }
      [("studentId", JVal.num 100), ("amount", JVal.num 10),
       ("dueDate", JVal.str "2025-06-03"), ("status", JVal.str "Pending")]).db.Fees =
      sampleDB.Fees ++
        [{ Id := 6, StudentId := some 100, Amount := some 10, Submitted := some 0,
           Fine := some 0, DueDate := some 20250603, Status := some "Pending" }] ∧
    (selectUser sampleDB (some 1)).isSome = true ∧
    (deleteAccounts sampleDB { userId := 100, role := some "Student", schoolId := some 1 } 1).status
      = 204 ∧
    selectUser
      (deleteAccounts sampleDB { userId := 100, role := some "Student", schoolId := some 1 } 1).db
      (some 1) = none := by
  decide

/-! ## Staff reading announcements -/

/-- C11, evaluated: on the sample state notice 1, event 1 and holiday 1 belong
to school 1; a Staff principal of school 1 calls `GET /api/notices`,
`GET /api/events` and `GET /api/holidays` and each answers 403. -/
theorem staff_announcements_denied :
    sampleDB.Notices.map (fun r => r.SchoolId) = [some 1] ∧
    sampleDB.Events.map (fun r => r.SchoolId) = [some 1] ∧
    sampleDB.Holidays.map (fun r => r.SchoolId) = [some 1] ∧
    (getNotices sampleDB { userId := 50, role := some "Staff", schoolId := some 1 } []).status
      = 403 ∧
    (getEvents sampleDB { userId := 50, role := some "Staff", schoolId := some 1 } []).status
      = 403 ∧
    (getHolidays sampleDB { userId := 50, role := some "Staff", schoolId := some 1 } []).status
      = 403 := by
  decide

/-- The three announcement reads answer 403 to every Staff principal, whatever
the state and the query. -/
theorem staff_announcements_always_403 (db : DB) (user : ReqUser) (query : Obj)
    (hrole : user.role = some "Staff") :
    (getNotices db user query).status = 403 ∧ (getEvents db user query).status = 403 ∧
    (getHolidays db user query).status = 403 := by
  simp [getNotices, getEvents, getHolidays, hrole, reply]

/-! ## Deletes with a broken ownership chain -/

/-- C12, evaluated: in `accountsDB` fee 6 belongs to student 102 and subject 2
to class 30, and class 30 has no row.  `DELETE /api/fees/6` and
`DELETE /api/subjects/2` answer 500 to the School principal of school 1, and
answer 200 and delete the row for the Admin principal. -/
theorem delete_with_missing_class :
    (accountsDB.Fees.find? (fun r => r.Id == 6)).map (fun r => r.StudentId) = some (some 102) ∧
    (selectStudent accountsDB (some 102)).map (fun r => r.ClassId) = some (some 30) ∧
    (accountsDB.Subjects.find? (fun r => r.Id == 2)).map (fun r => r.ClassId) = some (some 30) ∧
    selectClass accountsDB (some 30) = none ∧
    (deleteFees accountsDB { userId := 2, role := some "School", schoolId := some 1 } 6).status
      = 500 ∧
    (deleteFees accountsDB { userId := 1, role := some "Admin", schoolId := none } 6).status
      = 200 ∧
    (deleteFees accountsDB { userId := 1, role := some "Admin", schoolId := none } 6).db.Fees
      = sampleDB.Fees ∧
    (deleteSubjects accountsDB { userId := 2, role := some "School", schoolId := some 1 } 2).status
      = 500 ∧
    (deleteSubjects accountsDB { userId := 1, role := some "Admin", schoolId := none } 2).status
      = 200 ∧
    (deleteSubjects accountsDB
      { userId := 1, role := some "Admin", schoolId := none } 2).db.Subjects =
      [{ Id := 1, Name := some "Maths", ClassId := some 10, TeacherId := some 7 }] := by
  decide

/-- The handler `DELETE /api/students/:id` does answer 404 and deletes nothing
when the student's class row is missing, for every principal. -/
theorem deleteStudents_missing_class_404 (db : DB) (user : ReqUser) (id : Int)
    (student : StudentRow) (hs : selectStudent db (some id) = some student)
    (hc : selectClass db student.ClassId = none) :
    (deleteStudents db user id).status = 404 ∧ (deleteStudents db user id).db = db := by
  simp [deleteStudents, hs, hc, reply]

/-! ## Salary rows and their two foreign keys -/

/-- C15, evaluated: every salary row of `accountsDB` has exactly one of
`TeacherId` and `StaffId`.  The Admin principal posts to `/api/salaries` with
`teacherId = 7` and `staffId = 3`: answer 201 and the new row has both set.  It
puts to `/api/salaries/1` a body with neither: answer 200 and row 1 has both
`NULL`. -/
theorem salaries_key_invariant_broken :
    accountsDB.Salaries.all salaryKeyOk = true ∧
    (postSalaries accountsDB { userId := 1, role := some "Admin", schoolId := none }
      [("teacherId", JVal.num 7), ("staffId", JVal.num 3), ("amount", JVal.num 10),
       ("month", JVal.str "2025-06-01"), ("year", JVal.num 2025)]).status = 201 ∧
    (postSalaries accountsDB { userId := 1, role := some "Admin", schoolId := none }
      [("teacherId", JVal.num 7), ("staffId", JVal.num 3), ("amount", JVal.num 10),
       ("month", JVal.str "2025-06-01"), ("year", JVal.num 2025)]).db.Salaries =
      accountsDB.Salaries ++
        [{ Id := 2, TeacherId := some 7, StaffId := some 3, Amount := some 10,
           Month := some 20250601, Year := some 2025 }] ∧
    (postSalaries accountsDB { userId := 1, role := some "Admin", schoolId := none }
      [("teacherId", JVal.num 7), ("staffId", JVal.num 3), ("amount", JVal.num 10),
       ("month", JVal.str "2025-06-01"), ("year", JVal.num 2025)]).db.Salaries.all salaryKeyOk
      = false ∧
    (putSalaries accountsDB { userId := 1, role := some "Admin", schoolId := none } 1
      [("amount", JVal.num 10), ("month", JVal.str "2025-06-01"),
       ("year", JVal.num 2025)]).status = 200 ∧
    (putSalaries accountsDB { userId := 1, role := some "Admin", schoolId := none } 1
      [("amount", JVal.num 10), ("month", JVal.str "2025-06-01"),
       ("year", JVal.num 2025)]).db.Salaries =
      [{ Id := 1, Amount := some 10, Month := some 20250601, Year := some 2025 }] ∧
    (putSalaries accountsDB { userId := 1, role := some "Admin", schoolId := none } 1
      [("amount", JVal.num 10), ("month", JVal.str "2025-06-01"),
       ("year", JVal.num 2025)]).db.Salaries.all salaryKeyOk = false := by
  decide

/-! ## Status codes of the accounts handlers -/

/-- C18, evaluated on `accountsDB`: `POST /api/accounts/fees` answers 500 to the
Admin principal for submitted above amount, for a status outside the enum, for
an amount that is not numeric, for an amount above the bound and for a student
that does not exist, and answers 500 to the School principal of school 2 for
student 100 of school 1; `PUT /api/accounts/fees/5` and
`PUT /api/accounts/salaries/1` answer 500 to that School principal and
`POST /api/accounts/salaries` answers 500 to it for teacher 7 of school 1. -/
theorem accounts_rejections_answer_500 :
    (postAccountsFees 0 accountsDB { userId := 1, role := some "Admin", schoolId := none }
      [("studentId", JVal.num 100), ("amount", JVal.num 10), ("submitted", JVal.num 20),
       ("dueDate", JVal.str "2025-06-01")]).status = 500 ∧
    (postAccountsFees 0 accountsDB { userId := 1, role := some "Admin", schoolId := none }
      [("studentId", JVal.num 100), ("amount", JVal.num 10), ("status", JVal.str "Late"),
       ("dueDate", JVal.str "2025-06-01")]).status = 500 ∧
    (postAccountsFees 0 accountsDB { userId := 1, role := some "Admin", schoolId := none }
      [("studentId", JVal.num 100), ("amount", JVal.str "ten"),
       ("dueDate", JVal.str "2025-06-01")]).status = 500 ∧
    (postAccountsFees 0 accountsDB { userId := 1, role := some "Admin", schoolId := none }
      [("studentId", JVal.num 100), ("amount", JVal.num 1000001),
       ("dueDate", JVal.str "2025-06-01")]).status = 500 ∧
    selectStudent accountsDB (some 999) = none ∧
    (postAccountsFees 0 accountsDB { userId := 1, role := some "Admin", schoolId := none }
      [("studentId", JVal.num 999), ("amount", JVal.num 10),
       ("dueDate", JVal.str "2025-06-01")]).status = 500 ∧
    (postAccountsFees 0 accountsDB { userId := 3, role := some "School", schoolId := some 2 }
      [("studentId", JVal.num 100), ("amount", JVal.num 10),
       ("dueDate", JVal.str "2025-06-01")]).status = 500 ∧
    (putAccountsFees accountsDB { userId := 3, role := some "School", schoolId := some 2 } 5
      [("amount", JVal.num 10), ("dueDate", JVal.str "2025-06-01")]).status = 500 ∧
    (postAccountsSalaries 0 accountsDB { userId := 3, role := some "School", schoolId := some 2 }
      [("teacherId", JVal.num 7), ("amount", JVal.num 10),
       ("month", JVal.str "2025-06-01")]).status = 500 ∧
    (putAccountsSalaries accountsDB { userId := 3, role := some "School", schoolId := some 2 } 1
      [("amount", JVal.num 10), ("month", JVal.str "2025-06-01")]).status = 500 := by
  decide

/-! ## The fee invariant on the write paths -/

/-- C19, evaluated: every fee row of the sample state has
`0 ≤ Submitted ≤ Amount`; the Admin principal posts to `/api/fees` with
`amount = 10` and `submitted = 20`: answer 201 and the new row has
`Submitted = 20 > Amount = 10`. -/
theorem postFees_breaks_fee_invariant :
    sampleDB.Fees.all feeAmountsOk = true ∧
    (postFees sampleDB { userId := 1, role := some "Admin", schoolId := none }
      [("studentId", JVal.num 100), ("amount", JVal.num 10), ("submitted", JVal.num 20),
       ("dueDate", JVal.str "2025-06-03")]).status = 201 ∧
    (postFees sampleDB { userId := 1, role := some "Admin", schoolId := none }
      [("studentId", JVal.num 100), ("amount", JVal.num 10), ("submitted", JVal.num 20),
       ("dueDate", JVal.str "2025-06-03")]).db.Fees =
      sampleDB.Fees ++
        [{ Id := 6, StudentId := some 100, Amount := some 10, Submitted := some 20,
           Fine := some 0, DueDate := some 20250603 }] ∧
    (postFees sampleDB { userId := 1, role := some "Admin", schoolId := none }
      [("studentId", JVal.num 100), ("amount", JVal.num 10), ("submitted", JVal.num 20),
       ("dueDate", JVal.str "2025-06-03")]).db.Fees.all feeAmountsOk = false := by
  decide

/-! ## Attendance with both or neither key -/

theorem selectStudent_null (db : DB) : selectStudent db none = none := by
  simp [selectStudent, sqlEq]

/-- What the student branch of `POST /api/attendance` does to storage: nothing,
or one more row that carries a `StudentId` and no `TeacherId`. -/
theorem postAttendanceStudent_effect (db : DB) (user : ReqUser) (studentId date status : JVal) :
    (postAttendanceStudent db user studentId date status).db = db ∨
    ∃ row : AttendanceRow,
      (postAttendanceStudent db user studentId date status).status = 201 ∧
      (postAttendanceStudent db user studentId date status).db =
        { db with Attendance := db.Attendance ++ [row] } ∧
      row.StudentId.isSome = true ∧ row.TeacherId = none := by
  unfold postAttendanceStudent
  split
  · left; simp [reply]
  · next key _ =>
    split
    · left; simp [reply]
    · next student h2 =>
      have hk : key.isSome = true := by
        cases key with
        | none => rw [selectStudent_null] at h2; cases h2
        | some k => rfl
      simp only []
      split
      · left; simp [reply]
      · left; simp [reply]
      · split
        · left; simp [reply]
        · split
          · left; simp [reply]
          · right
            exact ⟨_, rfl, rfl, hk, rfl⟩

/-- C13, counterexample: on the sample state the Admin principal posts
attendance with `studentId = 100` and `teacherId = 7` both set; the answer is
201 and a row for student 100 is inserted. -/
theorem postAttendance_both_keys_inserts :
    (postAttendance sampleDB { userId := 1, role := some "Admin", schoolId := none }
      [("studentId", JVal.num 100), ("teacherId", JVal.num 7),
       ("date", JVal.str "2025-06-03"), ("status", JVal.str "Present")]).status = 201 ∧
    (postAttendance sampleDB { userId := 1, role := some "Admin", schoolId := none }
      [("studentId", JVal.num 100), ("teacherId", JVal.num 7),
       ("date", JVal.str "2025-06-03"), ("status", JVal.str "Present")]).db.Attendance =
      sampleDB.Attendance ++
        [{ Id := 5, StudentId := some 100, Date := some 20250603, Status := some "Present" }] := by
  decide

/-- C13, amended: for every principal and storage state, `POST /api/attendance`
with date and status present answers 400 and inserts nothing when neither
`studentId` nor `teacherId` is set; when both are set it is handled as the
student request, `teacherId` ignored: storage is unchanged, or the answer is 201
and the one inserted row carries a `StudentId` and no `TeacherId`. -/
theorem postAttendance_neither_or_both (db : DB) (user : ReqUser) (body : Obj)
    (hdate : (body.get "date").truthy = true) (hstatus : (body.get "status").truthy = true) :
    ((body.get "studentId").truthy = false → (body.get "teacherId").truthy = false →
      (postAttendance db user body).status = 400 ∧ (postAttendance db user body).db = db) ∧
    ((body.get "studentId").truthy = true → (body.get "teacherId").truthy = true →
      postAttendance db user body =
        postAttendanceStudent db user (body.get "studentId") (body.get "date")
          (body.get "status") ∧
      ((postAttendance db user body).db = db ∨
        ∃ row : AttendanceRow,
          (postAttendance db user body).status = 201 ∧
          (postAttendance db user body).db =
            { db with Attendance := db.Attendance ++ [row] } ∧
          row.StudentId.isSome = true ∧ row.TeacherId = none)) := by
  refine ⟨?_, ?_⟩
  · intro hs ht
    simp [postAttendance, hdate, hstatus, hs, ht, reply]
  · intro hs _
    have heq : postAttendance db user body =
        postAttendanceStudent db user (body.get "studentId") (body.get "date")
          (body.get "status") := by
      simp [postAttendance, hdate, hstatus, hs]
    refine ⟨heq, ?_⟩
    rw [heq]
    exact postAttendanceStudent_effect db user _ _ _

/-- Witness of C13 amended: the empty-keyed body and the double-keyed body on
the sample state. -/
theorem postAttendance_neither_or_both_witness :
    (postAttendance sampleDB { userId := 1, role := some "Admin", schoolId := none }
      [("date", JVal.str "2025-06-03"), ("status", JVal.str "Present")]).status = 400 ∧
    postAttendance sampleDB { userId := 1, role := some "Admin", schoolId := none }
      [("studentId", JVal.num 100), ("teacherId", JVal.num 7),
       ("date", JVal.str "2025-06-03"), ("status", JVal.str "Present")] =
      postAttendanceStudent sampleDB { userId := 1, role := some "Admin", schoolId := none }
        (JVal.num 100) (JVal.str "2025-06-03") (JVal.str "Present") :=
  ⟨((postAttendance_neither_or_both sampleDB
      { userId := 1, role := some "Admin", schoolId := none }
      [("date", JVal.str "2025-06-03"), ("status", JVal.str "Present")]
      (by decide) (by decide)).1 (by decide) (by decide)).1,
   ((postAttendance_neither_or_both sampleDB
      { userId := 1, role := some "Admin", schoolId := none }
      [("studentId", JVal.num 100), ("teacherId", JVal.num 7),
       ("date", JVal.str "2025-06-03"), ("status", JVal.str "Present")]
      (by decide) (by decide)).2 (by decide) (by decide)).1⟩

/-! ## Salary creation with both or neither key -/

/-- C14: for every Admin or School principal and storage state,
`POST /api/accounts/salaries` with both `teacherId` and `staffId` set, or with
neither set, answers 400 and leaves storage as it is, whatever the other body
fields. -/
theorem postAccountsSalaries_exclusive (now : Int) (db : DB) (user : ReqUser) (body : Obj)
    (hrole : user.role = some "Admin" ∨ user.role = some "School")
    (hkeys : ((body.get "teacherId").truthy = true ∧ (body.get "staffId").truthy = true) ∨
      ((body.get "teacherId").truthy = false ∧ (body.get "staffId").truthy = false)) :
    (postAccountsSalaries now db user body).status = 400 ∧
    (postAccountsSalaries now db user body).db = db := by
  have hr : ¬ (user.role ≠ some "Admin" ∧ user.role ≠ some "School") := by
    rcases hrole with h | h <;> simp [h]
  unfold postAccountsSalaries
  simp only [hr, if_false]
  rcases hkeys with ⟨ht, hs⟩ | ⟨ht, hs⟩
  · simp only [ht, hs]
    split <;> simp [reply]
  · simp [ht, hs, reply]

/-- Witness of C14: the Admin principal with both keys, on `accountsDB`. -/
theorem postAccountsSalaries_exclusive_witness :
    (postAccountsSalaries 0 accountsDB { userId := 1, role := some "Admin", schoolId := none }
      [("teacherId", JVal.num 7), ("staffId", JVal.num 3), ("amount", JVal.num 10),
       ("month", JVal.str "2025-06-01")]).status = 400 ∧
    (postAccountsSalaries 0 accountsDB { userId := 1, role := some "Admin", schoolId := none }
      [("teacherId", JVal.num 7), ("staffId", JVal.num 3), ("amount", JVal.num 10),
       ("month", JVal.str "2025-06-01")]).db = accountsDB :=
  postAccountsSalaries_exclusive 0 accountsDB
    { userId := 1, role := some "Admin", schoolId := none }
    [("teacherId", JVal.num 7), ("staffId", JVal.num 3), ("amount", JVal.num 10),
     ("month", JVal.str "2025-06-01")]
    (Or.inl rfl) (Or.inl ⟨by decide, by decide⟩)

/-! ## Students of a class across schools -/

theorem find_of_filter_singleton {α : Type} (p : α → Bool) (l : List α) (a : α)
    (h : l.filter p = [a]) : l.find? p = some a := by
  induction l with
  | nil => simp at h
  | cons x xs ih =>
    by_cases hx : p x = true
    · simp only [List.filter_cons, hx, if_true, List.cons.injEq] at h
      rw [← h.1]
      simp [List.find?_cons, hx]
    · have hx2 : p x = false := by simpa using hx
      simp only [List.filter_cons, hx2, Bool.false_eq_true, if_false] at h
      simp [List.find?_cons, hx2, ih h]

theorem selectClass_of_filter (db : DB) (classId : Int) (classData : ClassRow)
    (h : db.Classes.filter (fun c => c.Id == classId) = [classData]) :
    selectClass db (some classId) = some classData := by
  have hp : (fun r : ClassRow => sqlEq (some r.Id) (some classId)) =
      (fun c : ClassRow => c.Id == classId) := by
    funext r
    simp [sqlEq]
  unfold selectClass
  rw [hp]
  exact find_of_filter_singleton _ _ _ h

theorem students_join_unique_class (students : List StudentRow) (classes : List ClassRow)
    (classId : Int) (classData : ClassRow)
    (h : classes.filter (fun c => c.Id == classId) = [classData]) :
    (students.filter (fun s => sqlEq s.ClassId (some classId))).flatMap (fun s =>
      (classes.filter (fun c => sqlEq s.ClassId (some c.Id))).map (studentClassObj s)) =
    (students.filter (fun s => sqlEq s.ClassId (some classId))).map
      (fun s => studentClassObj s classData) := by
  induction students with
  | nil => rfl
  | cons s rest ih =>
    by_cases hs : sqlEq s.ClassId (some classId) = true
    · have hcls : s.ClassId = some classId := by
        cases hc : s.ClassId with
        | none => simp [sqlEq, hc] at hs
        | some k =>
          simp [sqlEq, hc] at hs
          rw [hs]
      have hp : (fun c : ClassRow => sqlEq s.ClassId (some c.Id)) =
          (fun c : ClassRow => c.Id == classId) := by
        funext c
        simp [sqlEq, hcls, eq_comm]
      simp only [List.filter_cons, hs, if_true, List.flatMap_cons, List.map_cons, ih]
      rw [hp, h]
      rfl
    · have hs2 : sqlEq s.ClassId (some classId) = false := by simpa using hs
      simp only [List.filter_cons, hs2, Bool.false_eq_true, if_false]
      exact ih

/-- C20, counterexample: on the sample state class 10 belongs to school 1; the
School principal of school 2 calls `GET /api/students/class/10` and is answered
403, not 404. -/
theorem getStudentsByClass_cross_school_403 :
    (selectClass sampleDB (some 10)).map (fun r => r.SchoolId) = some (some 1) ∧
    (getStudentsByClass sampleDB
      { userId := 3, role := some "School", schoolId := some 2 } 10).status = 403 := by
  decide

/-- C20, amended: for every existing class of school S1 and every principal with
role School and school S2 different from S1, `GET /api/students/class/:classId`
answers 403 with a message and no student rows; for the School principal of S1
it answers 200 with exactly the Students rows whose `ClassId` is that class,
each with the name of the class. -/
theorem getStudentsByClass_school (db : DB) (user : ReqUser) (classId : Int)
    (classData : ClassRow) (hrole : user.role = some "School")
    (hclass : db.Classes.filter (fun c => c.Id == classId) = [classData]) :
    (classData.SchoolId ≠ user.schoolId →
      (getStudentsByClass db user classId).status = 403 ∧
      (getStudentsByClass db user classId).body =
        Body.message "Access denied: You can only view students in your own school" ∧
      (getStudentsByClass db user classId).db = db) ∧
    (classData.SchoolId = user.schoolId →
      (getStudentsByClass db user classId).status = 200 ∧
      (getStudentsByClass db user classId).body =
        Body.rows ((db.Students.filter (fun s => sqlEq s.ClassId (some classId))).map
          (fun s => studentClassObj s classData)) ∧
      (getStudentsByClass db user classId).db = db) := by
  have hsel := selectClass_of_filter db classId classData hclass
  refine ⟨?_, ?_⟩
  · intro hne
    simp [getStudentsByClass, hsel, hrole, hne, reply]
  · intro hsame
    have hjoin := students_join_unique_class db.Students db.Classes classId classData hclass
    simp [getStudentsByClass, hsel, hrole, hsame, hjoin]

/-- Witness of C20 amended: class 10 of the sample state and the School
principal of school 1. -/
theorem getStudentsByClass_school_witness :
    (getStudentsByClass sampleDB
      { userId := 2, role := some "School", schoolId := some 1 } 10).status = 200 ∧
    (getStudentsByClass sampleDB
      { userId := 2, role := some "School", schoolId := some 1 } 10).body =
      Body.rows
        ((sampleDB.Students.filter (fun s => sqlEq s.ClassId (some 10))).map
          (fun s => studentClassObj s { Id := 10, Name := some "5A", SchoolId := some 1 })) ∧
    (getStudentsByClass sampleDB
      { userId := 2, role := some "School", schoolId := some 1 } 10).db = sampleDB :=
  (getStudentsByClass_school sampleDB
    { userId := 2, role := some "School", schoolId := some 1 } 10
    { Id := 10, Name := some "5A", SchoolId := some 1 } rfl (by decide)).2 rfl

/-! ## Rejection of bad amounts by the accounts handlers -/

theorem isoDateShape_of_parse (cs : List Char) (day : Int)
    (h : parseIsoDate cs = some day) : isoDateShape cs = true := by
  unfold parseIsoDate at h
  by_cases hs : isoDateShape cs = true
  · exact hs
  · simp [hs] at h

theorem str_truthy_of_parse (d : String) (day : Int)
    (h : parseIsoDate d.data = some day) : (JVal.str d).truthy = true := by
  have hs := isoDateShape_of_parse d.data day h
  have hne : d ≠ "" := by
    intro hd
    rw [hd] at hs
    simp [isoDateShape] at hs
  simp [JVal.truthy, hne]

/-- C22: a request whose Authorization header is missing, or has no second
space-separated part, is answered 401 by `authenticateToken`; a request whose
token `jwt.verify` rejects is answered 403; in both cases `next` is not called:
the route answers with that status whatever its handler is, and storage is as
it was. -/
theorem unauthenticated_never_reaches_handler (verify : String → Option Obj) (db : DB)
    (authHeader : Option String) :
    ((authHeader = none ∨
        ∃ h, authHeader = some h ∧
          ((splitSpace h.data)[1]? = none ∨ (splitSpace h.data)[1]? = some [])) →
      authenticateToken verify db authHeader = AuthResult.respond 401 "Access token required" ∧
      ∀ handler : ReqUser → Outcome,
        route verify db authHeader handler = reply db 401 "Access token required") ∧
    (∀ (h : String) (c : Char) (cs : List Char), authHeader = some h →
      (splitSpace h.data)[1]? = some (c :: cs) → verify (String.mk (c :: cs)) = none →
      authenticateToken verify db authHeader = AuthResult.respond 403 "Invalid token" ∧
      ∀ handler : ReqUser → Outcome,
        route verify db authHeader handler = reply db 403 "Invalid token") := by
  refine ⟨?_, ?_⟩
  · intro hmiss
    have hauth : authenticateToken verify db authHeader =
        AuthResult.respond 401 "Access token required" := by
      rcases hmiss with h | ⟨h, hh, hpart⟩
      · simp [authenticateToken, h]
      · by_cases he : h = ""
        · simp [authenticateToken, hh, he]
        · rcases hpart with hp | hp <;> simp [authenticateToken, hh, he, hp]
    exact ⟨hauth, fun handler => by simp [route, hauth]⟩
  · intro h c cs hh hpart hver
    have hne : h ≠ "" := by
      intro he
      rw [he] at hpart
      simp [splitSpace] at hpart
    have hauth : authenticateToken verify db authHeader =
        AuthResult.respond 403 "Invalid token" := by
      simp [authenticateToken, hh, hne, hpart, hver]
    exact ⟨hauth, fun handler => by simp [route, hauth]⟩

/-- Witness of C22: no header, the header `Bearer` alone and a token that
`sampleVerify` rejects, on the sample state. -/
theorem unauthenticated_never_reaches_handler_witness :
    authenticateToken sampleVerify sampleDB none =
      AuthResult.respond 401 "Access token required" ∧
    authenticateToken sampleVerify sampleDB (some "Bearer") =
      AuthResult.respond 401 "Access token required" ∧
    authenticateToken sampleVerify sampleDB (some "Bearer forged") =
      AuthResult.respond 403 "Invalid token" :=
  ⟨((unauthenticated_never_reaches_handler sampleVerify sampleDB none).1 (Or.inl rfl)).1,
   ((unauthenticated_never_reaches_handler sampleVerify sampleDB (some "Bearer")).1
      (Or.inr ⟨"Bearer", rfl, Or.inl (by decide)⟩)).1,
   ((unauthenticated_never_reaches_handler sampleVerify sampleDB (some "Bearer forged")).2
      "Bearer forged" 'f' ['o', 'r', 'g', 'e', 'd'] rfl (by decide) (by decide)).1⟩

/-- C23, counterexample: a token that verifies with `userId = 999`, which has
no row in Users, is answered 404 by `authenticateToken`. -/
theorem deleted_subject_answered_404 :
    selectUser sampleDB (some 999) = none ∧
    authenticateToken (fun _ => some [("userId", JVal.num 999)]) sampleDB (some "Bearer t999") =
      AuthResult.respond 404 "User not found" := by
  decide

/-- C23, amended: for every token that verifies and whose `userId` has no row in
Users, `authenticateToken` answers 404 with the message `User not found` and does
not call `next`. -/
theorem deleted_subject_not_found (verify : String → Option Obj) (db : DB) (h : String)
    (c : Char) (cs : List Char) (decoded : Obj) (key : Option Int)
    (hpart : (splitSpace h.data)[1]? = some (c :: cs))
    (hver : verify (String.mk (c :: cs)) = some decoded)
    (hkey : sqlInt (decoded.get "userId") = some key)
    (hnone : selectUser db key = none) :
    authenticateToken verify db (some h) = AuthResult.respond 404 "User not found" ∧
    ∀ handler : ReqUser → Outcome,
      route verify db (some h) handler = reply db 404 "User not found" := by
  have hne : h ≠ "" := by
    intro he
    rw [he] at hpart
    simp [splitSpace] at hpart
  have hauth : authenticateToken verify db (some h) =
      AuthResult.respond 404 "User not found" := by
    simp [authenticateToken, hne, hpart, hver, hkey, hnone]
  exact ⟨hauth, fun handler => by simp [route, hauth]⟩

/-- Witness of C23 amended: the token of user 999 on the sample state. -/
theorem deleted_subject_not_found_witness :
    authenticateToken (fun _ => some [("userId", JVal.num 999)]) sampleDB (some "Bearer t999") =
      AuthResult.respond 404 "User not found" :=
  (deleted_subject_not_found (fun _ => some [("userId", JVal.num 999)]) sampleDB "Bearer t999"
    't' ['9', '9', '9'] [("userId", JVal.num 999)] (some 999)
    (by decide) rfl (by decide) (by decide)).1

/-! ## Login -/

/-- C30, evaluated: on `loginDB` the token of user 7 resolves to its principal;
`POST /api/users/reset-password` with the current password `chalk`, which
matches the stored hash, answers 500 and leaves storage as it is. -/
theorem resetPassword_matching_password_500 :
    authenticateToken sampleVerify loginDB (some "Bearer t7") =
      AuthResult.next { userId := 7, role := some "Teacher", schoolId := some 1 } ∧
    (selectUser loginDB (some 7)).map (fun r => r.Password) = some (some "#chalk") ∧
    sampleCompare "chalk" "#chalk" = true ∧
    (route sampleVerify loginDB (some "Bearer t7") (fun user =>
      resetPassword sampleCompare sampleHash loginDB user
        [("currentPassword", JVal.str "chalk"), ("newPassword", JVal.str "marker")])).status
      = 500 ∧
    (route sampleVerify loginDB (some "Bearer t7") (fun user =>
      resetPassword sampleCompare sampleHash loginDB user
        [("currentPassword", JVal.str "chalk"), ("newPassword", JVal.str "marker")])).db
      = loginDB := by
  decide

/-- The reset route answers 500 and changes nothing for every principal and
body: `req.user` has no property `Password`. -/
theorem resetPassword_always_500 (compare : String → String → Bool) (hash : String → String)
    (db : DB) (user : ReqUser) (body : Obj) :
    resetPassword compare hash db user body =
      reply db 500 "Server error while resetting password" := by
  have hp : user.get "Password" = JVal.undefined := by
    simp [ReqUser.get]
  unfold resetPassword
  simp only [hp, bcryptCompare]
  split <;> simp_all

/-! ## Subjects and the school of their teacher -/

/-- C28, evaluated: in `accountsDB` subject 1 belongs to class 10 of school 1
and has teacher 7 of school 1; class 20 belongs to school 2.  The School
principal of school 2 calls the first-registered `PUT /api/subjects/1` with
`classId = 20`: the answer is 200 and the row now names class 20 of school 2
with teacher 7 of school 1. -/
theorem putSubjects_leaves_foreign_teacher :
    accountsDB.Subjects.find? (fun r => r.Id == 1) =
      some { Id := 1, Name := some "Maths", ClassId := some 10, TeacherId := some 7 } ∧
    (selectTeacher accountsDB (some 7)).map (fun r => r.SchoolId) = some (some 1) ∧
    (selectClass accountsDB (some 20)).map (fun r => r.SchoolId) = some (some 2) ∧
    (putSubjects accountsDB { userId := 3, role := some "School", schoolId := some 2 } 1
      [("name", JVal.str "Maths"), ("classId", JVal.num 20)]).status = 200 ∧
    (putSubjects accountsDB { userId := 3, role := some "School", schoolId := some 2 } 1
      [("name", JVal.str "Maths"), ("classId", JVal.num 20)]).db.Subjects.find?
        (fun r => r.Id == 1) =
      some { Id := 1, Name := some "Maths", ClassId := some 20, TeacherId := some 7 } := by
  decide

/-! ## The order of the dates of a holiday -/

theorem dateRegexTest_of_parse (d : String) (day : Int)
    (h : parseIsoDate d.data = some day) : dateRegexTest (JVal.str d) = true := by
  simp [dateRegexTest, isoDateShape_of_parse d.data day h]

theorem sqlDate_of_parse (d : String) (day : Int)
    (h : parseIsoDate d.data = some day) : sqlDate (JVal.str d) = some (some day) := by
  simp [sqlDate, h]

theorem postHolidays_written (now : Int) (db : DB) (user : ReqUser) (body : Obj)
    (ds de : String) (s e : Int)
    (hs : body.get "startDate" = JVal.str ds) (he : body.get "endDate" = JVal.str de)
    (hps : parseIsoDate ds.data = some s) (hpe : parseIsoDate de.data = some e)
    (hok : (postHolidays now db user body).status = 201) :
    ∃ row : HolidayRow,
      (postHolidays now db user body).db = { db with Holidays := db.Holidays ++ [row] } ∧
      row.StartDate = some s ∧ row.EndDate = some e ∧ s ≤ e := by
  have key : ∀ o : Outcome, o = postHolidays now db user body → o.status = 201 →
      ∃ row : HolidayRow, o.db = { db with Holidays := db.Holidays ++ [row] } ∧
        row.StartDate = some s ∧ row.EndDate = some e ∧ s ≤ e := by
    intro o ho
    unfold postHolidays at ho
    simp only [hs, he, sqlDate_of_parse ds s hps, sqlDate_of_parse de e hpe, newDate, hps, hpe,
      dateLt] at ho
    split at ho
    · subst ho; intro h; simp [reply] at h
    · split at ho
      · subst ho; intro h; simp [reply] at h
      · split at ho
        · subst ho; intro h; simp [reply] at h
        · next hlt =>
          have hle : s ≤ e := by
            simp only [decide_eq_true_eq, not_lt] at hlt
            exact hlt
          split at ho
          · subst ho; intro h; simp [reply] at h
          · split at ho
            · subst ho; intro h; simp [reply] at h
            · split at ho
              · next d1 d2 sid h1 h2 _ =>
                subst ho
                intro _
                simp only [Option.some.injEq] at h1 h2
                subst h1
                subst h2
                exact ⟨_, rfl, rfl, rfl, hle⟩
              · subst ho; intro h; simp [reply] at h
  exact key _ rfl hok

theorem map_update_mem {α : Type} (l : List α) (p : α → Prop) [DecidablePred p]
    (f : α → α) (r : α) (hr : r ∈ l.map (fun x => if p x then f x else x)) :
    (∃ x ∈ l, p x ∧ r = f x) ∨ (r ∈ l ∧ ¬ p r) := by
  rw [List.mem_map] at hr
  obtain ⟨x, hx, hxr⟩ := hr
  by_cases hp : p x
  · left
    rw [if_pos hp] at hxr
    exact ⟨x, hx, hp, hxr.symm⟩
  · right
    rw [if_neg hp] at hxr
    rw [← hxr]
    exact ⟨hx, hp⟩

theorem putHolidays_written (db : DB) (user : ReqUser) (id : Int) (body : Obj)
    (ds de : String) (s e : Int)
    (hs : body.get "startDate" = JVal.str ds) (he : body.get "endDate" = JVal.str de)
    (hps : parseIsoDate ds.data = some s) (hpe : parseIsoDate de.data = some e)
    (hok : (putHolidays db user id body).status = 200) :
    ∀ r ∈ (putHolidays db user id body).db.Holidays, r.Id = id →
      r.StartDate = some s ∧ r.EndDate = some e ∧ s ≤ e := by
  have key : ∀ o : Outcome, o = putHolidays db user id body → o.status = 200 →
      ∀ r ∈ o.db.Holidays, r.Id = id →
        r.StartDate = some s ∧ r.EndDate = some e ∧ s ≤ e := by
    intro o ho
    unfold putHolidays at ho
    simp only [hs, he, sqlDate_of_parse ds s hps, sqlDate_of_parse de e hpe, newDate, hps, hpe,
      dateLt, parseInt] at ho
    split at ho
    · subst ho; intro h; simp [reply] at h
    · split at ho
      · subst ho; intro h; simp [reply] at h
      · split at ho
        · subst ho; intro h; simp [reply] at h
        · next hlt =>
          have hle : s ≤ e := by
            simp only [decide_eq_true_eq, not_lt] at hlt
            exact hlt
          split at ho
          · subst ho; intro h; simp [reply] at h
          · split at ho
            · subst ho; intro h; simp [reply] at h
            · split at ho
              · subst ho; intro h; simp [reply] at h
              · split at ho
                · next d1 d2 sid h1 h2 _ =>
                  simp only [Option.some.injEq] at h1 h2
                  subst h1
                  subst h2
                  split at ho
                  · subst ho; intro h; simp [reply] at h
                  · subst ho
                    intro _ r hr hid
                    rcases map_update_mem db.Holidays (fun x => x.Id = id) _ r hr with
                      ⟨x, _, _, hx⟩ | ⟨_, hne⟩
                    · rw [hx]
                      exact ⟨rfl, rfl, hle⟩
                    · exact absurd hid hne
                · subst ho; intro h; simp [reply] at h
  exact key _ rfl hok

/-- C21: for every principal and every body whose name, description and schoolId
are present and whose startDate and endDate are valid calendar dates in the form
YYYY-MM-DD with endDate strictly before startDate, `POST /api/holidays` and
`PUT /api/holidays/:id` answer 400 with the message
`End date cannot be before start date` and leave storage as it is; and whenever
these handlers succeed on valid calendar dates, the row they write has
`EndDate ≥ StartDate`. -/
theorem holiday_date_order (now : Int) (db : DB) (user : ReqUser) (id : Int) (body : Obj)
    (ds de : String) (s e : Int)
    (hs : body.get "startDate" = JVal.str ds) (he : body.get "endDate" = JVal.str de)
    (hps : parseIsoDate ds.data = some s) (hpe : parseIsoDate de.data = some e) :
    ((body.get "name").truthy = true → (body.get "description").truthy = true →
      (body.get "schoolId").truthy = true → e < s →
      postHolidays now db user body = reply db 400 "End date cannot be before start date" ∧
      putHolidays db user id body = reply db 400 "End date cannot be before start date") ∧
    ((postHolidays now db user body).status = 201 →
      ∃ row : HolidayRow,
        (postHolidays now db user body).db = { db with Holidays := db.Holidays ++ [row] } ∧
        row.StartDate = some s ∧ row.EndDate = some e ∧ s ≤ e) ∧
    ((putHolidays db user id body).status = 200 →
      ∀ r ∈ (putHolidays db user id body).db.Holidays, r.Id = id →
        r.StartDate = some s ∧ r.EndDate = some e ∧ s ≤ e) := by
  refine ⟨?_, postHolidays_written now db user body ds de s e hs he hps hpe,
    putHolidays_written db user id body ds de s e hs he hps hpe⟩
  intro hn hd hsch hlt
  have t1 := str_truthy_of_parse ds s hps
  have t2 := str_truthy_of_parse de e hpe
  have r1 := dateRegexTest_of_parse ds s hps
  have r2 := dateRegexTest_of_parse de e hpe
  refine ⟨?_, ?_⟩
  · simp [postHolidays, hs, he, hn, hd, hsch, t1, t2, r1, r2, newDate, hps, hpe, dateLt, hlt]
  · simp [putHolidays, parseInt, hs, he, hn, hd, hsch, t1, t2, r1, r2, newDate, hps, hpe,
      dateLt, hlt]

/-- Witness of C21: start 2025-06-10 and end 2025-06-01 on the sample state, for
the School principal of school 1. -/
theorem holiday_date_order_witness :
    postHolidays 0 sampleDB { userId := 2, role := some "School", schoolId := some 1 }
      [("name", JVal.str "Break"), ("startDate", JVal.str "2025-06-10"),
       ("endDate", JVal.str "2025-06-01"), ("description", JVal.str "d"),
       ("schoolId", JVal.num 1)] =
      reply sampleDB 400 "End date cannot be before start date" ∧
    putHolidays sampleDB { userId := 2, role := some "School", schoolId := some 1 } 1
      [("name", JVal.str "Break"), ("startDate", JVal.str "2025-06-10"),
       ("endDate", JVal.str "2025-06-01"), ("description", JVal.str "d"),
       ("schoolId", JVal.num 1)] =
      reply sampleDB 400 "End date cannot be before start date" :=
  (holiday_date_order 0 sampleDB { userId := 2, role := some "School", schoolId := some 1 } 1
    [("name", JVal.str "Break"), ("startDate", JVal.str "2025-06-10"),
     ("endDate", JVal.str "2025-06-01"), ("description", JVal.str "d"),
     ("schoolId", JVal.num 1)]
    "2025-06-10" "2025-06-01" 20250610 20250601 rfl rfl (by decide) (by decide)).1
    (by decide) (by decide) (by decide) (by decide)

/-! ## The range of validated amounts -/

end SchoolServer
